import Mathlib

set_option maxRecDepth 8192

/-! Shallow embedding of the questionnaire and canvas tooling of the
repository: the markdown parsers, the JSON state stores, the progress
calculators and the report/export generators found in
examples/ai_governance_agent/tools/tools.py and
examples/ai_ideation_agent/tools/tools.py, together with proofs about the
claims of the specification.

Conventions of the embedding:
* Python strings are Lean strings; helpers prefixed `py` mirror the
  corresponding Python `str` methods (ASCII case folding; the regex class
  `\w` is modelled as ASCII word characters, `\d` as ASCII digits).
* Python dicts -- which preserve insertion order, with key assignment
  replacing the value in place -- are association lists
  `List (String × v)` with operations `alGet`, `alSet`, `alModify`.
* The file system is explicit: tool functions receive the current content
  of the persisted JSON state file as an `Option` of the state type
  (`none` = file absent) and return, besides their message, the list of
  other files they write and the new persisted state (`none` = the state
  file is not touched).  File contents are represented structurally: the
  constructor `FData.stateFile s` stands for the JSON serialization of
  `s`, which is injective on states.
* All calls of `datetime.now()` inside one tool invocation are modelled by
  a single `Now` record of preformatted timestamp strings.
* Mutable aliasing in the parsers (the `current_question` dict object is
  stored into a section and later label lines mutate it in place) is made
  explicit: the parser state records in `aliasKeys` the keys of the
  sections whose stored question entry is the very object `curQ`, and a
  mutation of `curQ` updates those stored entries as well. -/

/-! ### Python string primitives -/

/-- The whitespace characters removed by the Python `str.strip` method. -/
def pyIsSpace (c : Char) : Bool :=
  c = ' ' || c = '\t' || c = '\n' || c = '\r' || c = Char.ofNat 11 || c = Char.ofNat 12

/-- Test that the first character list is an initial segment of the second. -/
def beginsWith : List Char → List Char → Bool
  | [], _ => true
  | _ :: _, [] => false
  | p :: ps, c :: cs => p == c && beginsWith ps cs

/-- Remove leading and trailing Python whitespace from a character list. -/
def stripChars (l : List Char) : List Char :=
  ((l.dropWhile pyIsSpace).reverse.dropWhile pyIsSpace).reverse

/-- Python `s.strip()`. -/
def pyStrip (s : String) : String := String.mk (stripChars s.toList)

/-- Python `s.startswith(pre)`. -/
def pyStartsWith (s pre : String) : Bool := beginsWith pre.toList s.toList

/-- Python `s.lower()` (ASCII letters; the code only compares ASCII tokens). -/
def pyLower (s : String) : String := String.mk (s.toList.map Char.toLower)

/-- Python `len(s)` (number of code points). -/
def pyLen (s : String) : Nat := s.toList.length

/-- Python `s[:n]` for `0 ≤ n`. -/
def pyTake (n : Nat) (s : String) : String := String.mk (s.toList.take n)

/-- One left-to-right pass of Python `str.replace` over a character list;
`p :: ps` is the (non-empty) pattern.  The first argument is fuel, kept at
least the length of the scanned list so that the recursion is structural
(and hence computable by kernel reduction): every recursive call consumes
at least one character. -/
def replChars (p : Char) (ps rep : List Char) : Nat → List Char → List Char
  | 0, _ => []
  | _ + 1, [] => []
  | n + 1, c :: cs =>
    if beginsWith (p :: ps) (c :: cs) then
      rep ++ replChars p ps rep n (cs.drop ps.length)
    else
      c :: replChars p ps rep n cs

/-- Python `s.replace(pat, rep)`; every non-overlapping occurrence is
replaced, scanning left to right.  (The code never calls it with an empty
pattern.) -/
def pyReplaceAll (s pat rep : String) : String :=
  match pat.toList with
  | [] => s
  | p :: ps => String.mk (replChars p ps rep.toList s.toList.length s.toList)

/-- Split a character list at every occurrence of a separator character,
keeping empty pieces (the accumulator holds the current piece
reversed). -/
def splitOnCharAux (sep : Char) : List Char → List Char → List (List Char)
  | [], acc => [acc.reverse]
  | c :: cs, acc =>
    if c = sep then acc.reverse :: splitOnCharAux sep cs []
    else splitOnCharAux sep cs (c :: acc)

/-- Python `s.split(sep)` for a one-character separator (the code only
splits on `"\n"` and `","`). -/
def pySplitChar (sep : Char) (s : String) : List String :=
  (splitOnCharAux sep s.toList []).map String.mk

/-- Substring test on character lists. -/
def hasSub (pat : List Char) (l : List Char) : Bool :=
  match l with
  | [] => beginsWith pat []
  | c :: cs => beginsWith pat (c :: cs) || hasSub pat cs

/-- The Python membership operator `needle in hay` on strings. -/
def pySub (needle hay : String) : Bool := hasSub needle.toList hay.toList

/-- A single quote character, used inside message strings. -/
def sglq : String := String.mk [Char.ofNat 39]

/-- Python `repr` of a list of strings, as printed inside f-strings
(single-quoted items, comma-space separated). -/
def pyListRepr (l : List String) : String :=
  "[" ++ String.intercalate ", " (l.map (fun s => sglq ++ s ++ sglq)) ++ "]"

/-! ### Association lists modelling Python dicts -/

/-- Python `d.get(k)` / `d[k]`. -/
def alGet {β : Type} (k : String) : List (String × β) → Option β
  | [] => none
  | (k2, v) :: rest => if k2 = k then some v else alGet k rest

/-- Python `d[k] = v`: replace the value in place if the key is present,
otherwise append the new entry at the end (insertion order). -/
def alSet {β : Type} (k : String) (v : β) : List (String × β) → List (String × β)
  | [] => [(k, v)]
  | (k2, v2) :: rest => if k2 = k then (k2, v) :: rest else (k2, v2) :: alSet k v rest

/-- Update the value stored at a key, if the key is present. -/
def alModify {β : Type} (k : String) (f : β → β) : List (String × β) → List (String × β)
  | [] => []
  | (k2, v2) :: rest => if k2 = k then (k2, f v2) :: rest else (k2, v2) :: alModify k f rest

/-! ### The outline data model (parse_questionnaire / parse_canvas) -/

/-- A parsed question: the dict built for a `### Q<id> - <title>` line. -/
structure Question where
  id : String
  title : String
  question : String
  qtype : String
  required : Bool
  options : Option (List String)
deriving DecidableEq, Repr

/-- A parsed section: the dict built for a `## Section <N>: <name>` line. -/
structure QSection where
  number : String
  name : String
  questions : List (String × Question)
deriving DecidableEq, Repr

/-- The accumulator state of the line-scanning parsers.  `curSection` holds
the key of the section the `current_section` variable points at (the
object it references always coincides with the entry stored at that key),
`curQ` the `current_question` dict (`none` both for the initial `{}` and
for the id-less partial dicts that label lines would build before any
question header, which are never stored and behave identically), and
`aliasKeys` the keys of the sections in which the very object `curQ` is
currently stored, so that in-place mutation can be replayed. -/
structure PState where
  sections : List (String × QSection)
  curSection : Option String
  curQ : Option Question
  aliasKeys : List String
deriving DecidableEq, Repr

def initPState : PState := ⟨[], none, none, []⟩

/-- Match of the regex `## Section (\d+): (.+)` at the start of the line:
the literal prefix, a maximal non-empty digit run, the literal `: `, and a
non-empty remainder.  (Shortening the greedy digit run can never help the
regex engine, because the character after a shortened run is a digit.) -/
def matchSection (s : String) : Option (String × String) :=
  let l := s.toList
  if beginsWith "## Section ".toList l then
    let rest := l.drop 11
    let ds := rest.takeWhile Char.isDigit
    let after := rest.dropWhile Char.isDigit
    if !ds.isEmpty && beginsWith [':', ' '] after && !(after.drop 2).isEmpty then
      some (String.mk ds, String.mk (after.drop 2))
    else none
  else none

/-- Match of the regex `### (Q[\d.]+) - (.+)` at the start of the line:
the literal `### Q`, a maximal non-empty run of digits and dots, the
literal ` - `, and a non-empty remainder. -/
def matchQ (s : String) : Option (String × String) :=
  let l := s.toList
  if beginsWith "### Q".toList l then
    let rest := l.drop 5
    let ds := rest.takeWhile (fun c => c.isDigit || c = '.')
    let after := rest.dropWhile (fun c => c.isDigit || c = '.')
    if !ds.isEmpty && beginsWith [' ', '-', ' '] after && !(after.drop 3).isEmpty then
      some ("Q" ++ String.mk ds, String.mk (after.drop 3))
    else none
  else none

/-- `current_section["questions"][qid] = current_question` guarded by
`if current_question and current_section`: store the in-progress question
into the current section.  The stored entry is the same object as
`current_question`, so the section key is recorded in `aliasKeys`. -/
def storeCur (st : PState) : PState :=
  match st.curQ, st.curSection with
  | some q, some k =>
    { st with
      sections :=
        alModify k (fun sec => { sec with questions := alSet q.id q sec.questions }) st.sections,
      aliasKeys := k :: st.aliasKeys }
  | _, _ => st

/-- In-place mutation of the `current_question` dict by a label line.  The
mutation is visible through every alias of the object, i.e. in every
section in which the object is currently stored. -/
def mutateCur (st : PState) (f : Question → Question) : PState :=
  match st.curQ with
  | none => st
  | some q =>
    let q2 := f q
    { st with
      curQ := some q2,
      sections :=
        st.aliasKeys.foldl
          (fun ss k =>
            alModify k
              (fun sec => { sec with questions := alModify q2.id (fun _ => q2) sec.questions })
              ss)
          st.sections }

/-- The fresh dict built for a matching `### Q<id> - <title>` line. -/
def newQuestion (qid title : String) : Question :=
  { id := qid, title := title, question := "", qtype := "text", required := true, options := none }

/-- `line.replace(label, "").strip()`, shared by all label-line branches. -/
def labelValue (line lbl : String) : String := pyStrip (pyReplaceAll line lbl "")

/-- The shared tail of the per-line dispatch: the branches for question
headers and for the `**Question:**`, `**Options:**`, `**Type:**` and
`**Required:**` labels, identical in both parsers.  `line` is already
stripped. -/
def lineStepRest (st : PState) (line : String) : PState :=
  if pyStartsWith line "### Q" then
    let st1 := storeCur st
    match matchQ line with
    | some (qid, title) => { st1 with curQ := some (newQuestion qid title), aliasKeys := [] }
    | none => st1
  else if pyStartsWith line "**Question:**" then
    mutateCur st (fun q => { q with question := labelValue line "**Question:**" })
  else if pyStartsWith line "**Options:**" then
    let opts := (pySplitChar ',' (labelValue line "**Options:**")).map pyStrip
    mutateCur st (fun q => { q with options := some opts, qtype := "choice" })
  else if pyStartsWith line "**Type:**" then
    mutateCur st (fun q => { q with qtype := labelValue line "**Type:**" })
  else if pyStartsWith line "**Required:**" then
    mutateCur st (fun q => { q with required := pyLower (labelValue line "**Required:**") == "true" })
  else st

/-- One line of `parse_questionnaire` (ai_governance_agent).  On a section
header the in-progress question is left untouched. -/
def questionnaireStep (st : PState) (rawLine : String) : PState :=
  let line := pyStrip rawLine
  if pyStartsWith line "## Section" then
    match matchSection line with
    | some (num, name) =>
      { st with
        sections := alSet ("S" ++ num) ⟨num, name, []⟩ st.sections,
        curSection := some ("S" ++ num) }
    | none => st
  else lineStepRest st line

/-- One line of `parse_canvas` (ai_ideation_agent).  On a line that starts
with `## Section` the in-progress question is first saved into the
current section and the accumulator reset to `{}`. -/
def canvasStep (st : PState) (rawLine : String) : PState :=
  let line := pyStrip rawLine
  if pyStartsWith line "## Section" then
    let st1 :=
      match st.curQ, st.curSection with
      | some q, some k =>
        { st with
          sections :=
            alModify k (fun sec => { sec with questions := alSet q.id q sec.questions })
              st.sections,
          curQ := none,
          aliasKeys := [] }
      | _, _ => st
    match matchSection line with
    | some (num, name) =>
      { st1 with
        sections := alSet ("S" ++ num) ⟨num, name, []⟩ st1.sections,
        curSection := some ("S" ++ num) }
    | none => st1
  else lineStepRest st line

/-- `parse_questionnaire` on the content of the questionnaire markdown
file (the file content is a parameter of the embedding). -/
def parse_questionnaire (content : String) : List (String × QSection) :=
  (storeCur ((pySplitChar '\n' content).foldl questionnaireStep initPState)).sections

/-- `parse_canvas` on the content of the canvas markdown file. -/
def parse_canvas (content : String) : List (String × QSection) :=
  (storeCur ((pySplitChar '\n' content).foldl canvasStep initPState)).sections

/-! ### Shared state-store and tool helpers (the two tool files duplicate
this logic near-identically; identical pieces are defined once here) -/

/-- A saved answer record: the dict stored under a question id. -/
structure Answer where
  answer : String
  notes : Option String
  timestamp : String
deriving DecidableEq, Repr

/-- Preformatted timestamps for the `datetime.now()` calls of one tool
invocation (isoformat, strftime `%Y-%m-%d %H:%M`, `%Y%m%d`,
`%Y%m%d_%H%M%S`). -/
structure Now where
  iso : String
  stamp : String
  dateTag : String
  archiveTag : String
deriving DecidableEq, Repr

/-- The lookup loop shared by `save_answer` and `get_question`: the first
section (in insertion order) whose question mapping contains the id
yields the question title and the section name. -/
def findQuestion (sections : List (String × QSection)) (qid : String) :
    Option (String × String) :=
  match sections with
  | [] => none
  | (_, sec) :: rest =>
    match alGet qid sec.questions with
    | some q => some (q.title, sec.name)
    | none => findQuestion rest qid

/-- `sum(len(s["questions"]) for s in sections.values())`. -/
def total_questions (sections : List (String × QSection)) : Nat :=
  sections.foldl (fun acc p => acc + p.2.questions.length) 0

/-- `sum(1 for s in sections.values() for q in s["questions"].values() if q["required"])`. -/
def required_total (sections : List (String × QSection)) : Nat :=
  sections.foldl (fun acc p => acc + (p.2.questions.filter (fun qp => qp.2.required)).length) 0

/-- Count of required questions whose id is among the answered keys. -/
def required_answered (sections : List (String × QSection)) (answeredKeys : List String) : Nat :=
  sections.foldl
    (fun acc p =>
      acc + (p.2.questions.filter (fun qp => qp.2.required && answeredKeys.contains qp.1)).length)
    0

/-- The four running totals accumulated by `get_assessment_progress` and
`get_canvas_progress`. -/
structure ProgressCounts where
  total : Nat
  answered : Nat
  required : Nat
  reqAnswered : Nat
deriving DecidableEq, Repr

/-- The section loop of the progress tools: per-section counts summed into
the overall totals.  A question counts as answered when its id is a key of
the answer mapping. -/
def progressCounts (sections : List (String × QSection)) (answeredKeys : List String) :
    ProgressCounts :=
  sections.foldl
    (fun acc p =>
      let qs := p.2.questions
      { total := acc.total + qs.length,
        answered := acc.answered + (qs.filter (fun qp => answeredKeys.contains qp.1)).length,
        required := acc.required + (qs.filter (fun qp => qp.2.required)).length,
        reqAnswered :=
          acc.reqAnswered +
            (qs.filter (fun qp => qp.2.required && answeredKeys.contains qp.1)).length })
    ⟨0, 0, 0, 0⟩

/-- The overall percentage as computed inline by both progress tools:
`100*total_answered//total_questions if total_questions else 0`. -/
def overall_pct (total answeredTot : Nat) : Nat :=
  if total ≠ 0 then 100 * answeredTot / total else 0

/-- The required-question check of the report/export generators: for every
required question id missing from the answer mapping, the string
`"<qid>: <title>"`, in outline order. -/
def missing_required (sections : List (String × QSection)) (answers : List (String × Answer)) :
    List String :=
  sections.foldl
    (fun acc p =>
      p.2.questions.foldl
        (fun a2 qp =>
          if qp.2.required && (alGet qp.1 answers).isNone then
            a2 ++ [qp.1 ++ ": " ++ qp.2.title]
          else a2)
        acc)
    []

/-- The required-but-unanswered list appended by both progress tools:
one `- **{qid}**: {title} ({section name})` line per required question
whose id is not among the answered keys, in outline order. -/
def unansweredRequired (sections : List (String × QSection)) (answeredKeys : List String) :
    String :=
  sections.foldl
    (fun acc p =>
      p.2.questions.foldl
        (fun a2 qp =>
          if qp.2.required && !answeredKeys.contains qp.1 then
            a2 ++ "- **" ++ qp.1 ++ "**: " ++ qp.2.title ++ " (" ++ p.2.name ++ ")\n"
          else a2)
        acc)
    ""

/-- The displayed answer inside the save confirmation:
`{answer[:200]}{'...' if len(answer) > 200 else ''}`. -/
def answerDisplay (ans : String) : String :=
  pyTake 200 ans ++ (if pyLen ans > 200 then "..." else "")

/-- `answers.get(qid, {}).get("answer", dflt)`. -/
def getAnsD (answers : List (String × Answer)) (qid dflt : String) : String :=
  match alGet qid answers with
  | some a => a.answer
  | none => dflt

/-- Python truthiness of an optional string (`None` and `""` are falsy). -/
def optStrTruthy : Option String → Bool
  | none => false
  | some s => s ≠ ""

/-- Python `v or fallback` / `if not v: v = fallback` on an optional
string argument. -/
def pyOrStr (v : Option String) (fallback : String) : String :=
  match v with
  | some s => if s = "" then fallback else s
  | none => fallback

/-- ASCII model of the regex class `\w`. -/
def isWordChar (c : Char) : Bool := c.isAlpha || c.isDigit || c = '_'

/-- Replace every maximal run of whitespace/hyphen characters by a single
underscore (the effect of `re.sub(r"[\s-]+", "_", s)`); the flag records
whether the previous character belonged to such a run. -/
def collapseSD (prev : Bool) : List Char → List Char
  | [] => []
  | c :: cs =>
    if pyIsSpace c || c = '-' then
      if prev then collapseSD true cs else '_' :: collapseSD true cs
    else c :: collapseSD false cs

/-- The file-safe name derivation of the generators:
`re.sub(r"[^\w\s-]", "", use_case_name.lower())` followed by
`re.sub(r"[\s-]+", "_", safe_name)[:50]`. -/
def safe_name (s : String) : String :=
  let s1 := (pyLower s).toList.filter (fun c => isWordChar c || pyIsSpace c || c = '-')
  String.mk ((collapseSD false s1).take 50)

/-- The path of the output directory of an example (the embedding keeps it
symbolic; the code uses a directory next to the tools module). -/
def OUTPUT_DIR : String := "output"

/-! ### AI governance agent: state store and tools
(examples/ai_governance_agent/tools/tools.py) -/

namespace Gov

/-- The persisted assessment state (`current_assessment.json`).  The
fresh-state dict of the code carries the keys `created`, `status`,
`answers`, `metadata`; `updated` is added by `save_assessment` and
`report_file` by `generate_assessment_report`, so those two are optional
here.  The `metadata` mapping is never read by the code. -/
structure AssessmentState where
  created : String
  updated : Option String
  status : String
  answers : List (String × Answer)
  metadata : List (String × String)
  report_file : Option String
deriving DecidableEq, Repr

/-- Content of a file written by a governance tool. -/
inductive FData where
  | textFile (content : String)
  | stateFile (s : AssessmentState)
deriving DecidableEq, Repr

/-- Result of one governance tool invocation: the returned message, the
non-state files written (name and content, in write order), and the new
content of the assessment state file (`none` = the state file was not
written). -/
structure ToolOut where
  message : String
  files : List (String × FData)
  saved : Option AssessmentState
deriving DecidableEq, Repr

/-- The fresh assessment dict created when no state file exists. -/
def freshAssessment (now : Now) : AssessmentState :=
  { created := now.iso, updated := none, status := "in_progress",
    answers := [], metadata := [], report_file := none }

/-- `load_assessment`: the parsed state file if it exists, otherwise a
fresh in-memory state.  The second component is the list of files the
function writes, which is empty: loading performs no write. -/
def load_assessment (fs : Option AssessmentState) (now : Now) :
    AssessmentState × List (String × FData) :=
  (match fs with
   | some s => s
   | none => freshAssessment now, [])

/-- `save_assessment`: stamp the update time; the caller records the write
of the state file with this content. -/
def save_assessment (s : AssessmentState) (now : Now) : AssessmentState :=
  { s with updated := some now.iso }

/-- The not-found message of `save_answer` and `get_question`. -/
def questionNotFound (qid : String) : String :=
  "Error: Question " ++ sglq ++ qid ++ sglq ++ " not found in the questionnaire."

/-- The confirmation message of `save_answer`. -/
def save_answer_message (qid title sname disp : String) (answered total : Nat) : String :=
  "Answer saved successfully!\n\n**Question:** " ++ qid ++ " - " ++ title ++
    "\n**Section:** " ++ sname ++ "\n**Answer:** " ++ disp ++
    "\n\n**Progress:** " ++ toString answered ++ "/" ++ toString total ++ " questions answered"

/-- `save_answer(question_id, answer, notes)`: validate the id against the
outline, store the answer record, persist, and confirm with progress. -/
def save_answer (sections : List (String × QSection)) (fs : Option AssessmentState)
    (now : Now) (question_id answer : String) (notes : Option String) : ToolOut :=
  let assessment := (load_assessment fs now).1
  match findQuestion sections question_id with
  | none => { message := questionNotFound question_id, files := [], saved := none }
  | some (question_title, section_name) =>
    let a2 :=
      { assessment with
        answers := alSet question_id ⟨answer, notes, now.iso⟩ assessment.answers }
    { message :=
        save_answer_message question_id question_title section_name (answerDisplay answer)
          a2.answers.length (total_questions sections),
      files := [],
      saved := some (save_assessment a2 now) }

/-- The per-section rows of the progress table. -/
def progressRows (sections : List (String × QSection)) (answeredKeys : List String) : String :=
  sections.foldl
    (fun acc p =>
      let qs := p.2.questions
      acc ++ "| " ++ p.2.name ++ " | " ++ toString qs.length ++ " | " ++
        toString (qs.filter (fun qp => answeredKeys.contains qp.1)).length ++ " | " ++
        toString (qs.filter (fun qp => qp.2.required)).length ++ " | " ++
        toString (qs.filter (fun qp => qp.2.required && answeredKeys.contains qp.1)).length ++
        " |\n")
    ""

/-- `get_assessment_progress`: the rendered progress summary. -/
def get_assessment_progress (sections : List (String × QSection))
    (fs : Option AssessmentState) (now : Now) : String :=
  let assessment := (load_assessment fs now).1
  let answeredKeys := assessment.answers.map Prod.fst
  let c := progressCounts sections answeredKeys
  "# Assessment Progress\n\n" ++
    "**Started:** " ++ assessment.created ++ "\n" ++
    "**Last Updated:** " ++ assessment.updated.getD "Not yet" ++ "\n" ++
    "**Status:** " ++ assessment.status ++ "\n\n" ++
    "## Section Progress\n\n" ++
    "| Section | Total | Answered | Required | Req. Answered |\n" ++
    "|---------|-------|----------|----------|---------------|\n" ++
    progressRows sections answeredKeys ++
    "\n**Overall Progress:** " ++ toString c.answered ++ "/" ++ toString c.total ++
    " (" ++ toString (overall_pct c.total c.answered) ++ "%)\n" ++
    "**Required Questions:** " ++ toString c.reqAnswered ++ "/" ++ toString c.required ++
    " answered\n" ++
    (if c.reqAnswered < c.required then
      "\n### Unanswered Required Questions\n\n" ++ unansweredRequired sections answeredKeys
    else "")

/-- The fail-closed message of `generate_assessment_report`. -/
def cannot_generate_report (missing : List String) : String :=
  "Cannot generate report - the following required questions are unanswered:\n\n" ++
    String.intercalate "\n" (missing.map (fun q => "- " ++ q)) ++
    "\n\nPlease answer all required questions before generating the report."

/-- The per-section body of the generated report. -/
def reportSections (sections : List (String × QSection)) (answers : List (String × Answer)) :
    String :=
  sections.foldl
    (fun acc p =>
      acc ++ "## " ++ p.2.name ++ "\n\n" ++
        p.2.questions.foldl
          (fun a2 qp =>
            let answerText :=
              match alGet qp.1 answers with
              | some a => a.answer
              | none => "*Not answered*"
            let notes := (alGet qp.1 answers).bind (fun a => a.notes)
            a2 ++ "### " ++ qp.2.title ++ "\n\n**Question:** " ++ qp.2.question ++
              "\n\n**Answer:** " ++ answerText ++ "\n\n" ++
              (if optStrTruthy notes then
                "**Additional Notes:** " ++ notes.getD "" ++ "\n\n"
              else "") ++
              "---\n\n")
          "")
    ""

/-- The fixed risk-indicator rules appended to the report summary. -/
def riskLines (answers : List (String × Answer)) : String :=
  let ai_classification := getAnsD answers "Q4.1" ""
  let personal_data := getAnsD answers "Q3.1" ""
  let special_category := getAnsD answers "Q3.2" ""
  let dpia_status := getAnsD answers "Q3.8" ""
  let ethical_review := getAnsD answers "Q5.8" ""
  (if pySub "High Risk" ai_classification || pySub "Unacceptable" ai_classification then
    "- **EU AI Act:** This system is classified as HIGH RISK and requires enhanced compliance measures.\n"
  else "") ++
  (if pySub "Yes" personal_data then
    "- **Data Privacy:** Personal data is processed - ensure GDPR compliance.\n"
  else "") ++
  (if pySub "Yes" special_category then
    "- **Special Category Data:** Special category data processing requires additional safeguards.\n"
  else "") ++
  (if pySub "Not" dpia_status || pySub "Uncertain" dpia_status then
    "- **DPIA:** A Data Protection Impact Assessment may be required.\n"
  else "") ++
  (if pySub "Not" ethical_review then
    "- **Ethics:** An ethical review should be considered.\n"
  else "")

/-- The fixed head of the generated report. -/
def reportHeader (ucn ts assessorDisp : String) : String :=
  "# AI Governance Assessment Report\n\n**Use Case:** " ++ ucn ++
    "\n**Assessment Date:** " ++ ts ++ "\n**Assessor:** " ++ assessorDisp ++
    "\n**Status:** Complete\n\n---\n\n"

/-- The fixed summary introduction of the generated report. -/
def summaryIntro : String :=
  "## Assessment Summary\n\n### Risk Overview\n\nBased on the responses provided, the following key areas require attention:\n\n"

/-- The fixed closing block of the generated report. -/
def nextStepsBlock : String :=
  "\n### Next Steps\n\n1. Review all flagged risk areas\n2. Implement recommended controls\n3. Schedule periodic reassessment\n4. Document any changes to the AI system\n\n---\n\n*This report was generated by the AI Governance Agent.*\n*Review date should be scheduled according to the response in Q6.3.*\n"

/-- The success message of `generate_assessment_report`. -/
def reportSuccessMessage (reportPath ucn : String) : String :=
  "Assessment report generated successfully!\n\n**File:** " ++ reportPath ++
    "\n**Use Case:** " ++ ucn ++
    "\n\nThe complete assessment has been saved. You can share this report with stakeholders."

/-- `generate_assessment_report(use_case_name, assessor_name)`: fail closed
if a required question is unanswered; otherwise render the report, write
it, and persist the state as completed. -/
def generate_assessment_report (sections : List (String × QSection))
    (fs : Option AssessmentState) (now : Now)
    (use_case_name assessor_name : Option String) : ToolOut :=
  let assessment := (load_assessment fs now).1
  let answers := assessment.answers
  let missing := missing_required sections answers
  if missing ≠ [] then
    { message := cannot_generate_report missing, files := [], saved := none }
  else
    let ucn := pyOrStr use_case_name (getAnsD answers "Q1.1" "Unnamed AI Use Case")
    let report :=
      reportHeader ucn now.stamp (pyOrStr assessor_name "Not specified") ++
        reportSections sections answers ++ summaryIntro ++ riskLines answers ++ nextStepsBlock
    let report_filename := "assessment_" ++ safe_name ucn ++ "_" ++ now.dateTag ++ ".md"
    let a2 := { assessment with status := "completed", report_file := some report_filename }
    { message := reportSuccessMessage (OUTPUT_DIR ++ "/" ++ report_filename) ucn,
      files := [(report_filename, FData.textFile report)],
      saved := some (save_assessment a2 now) }

/-- The archive file name used by `start_new_assessment`. -/
def archiveFileName (now : Now) : String :=
  "assessment_archive_" ++ now.archiveTag ++ ".json"

/-- The fixed confirmation message of `start_new_assessment`. -/
def startNewMessage : String :=
  "New AI Governance Assessment started!\n\nThe questionnaire covers the following areas:\n1. General Information\n2. IT Security\n3. Data Privacy (GDPR)\n4. EU AI Act Compliance\n5. AI Ethics\n6. Implementation and Monitoring\n\nUse `load_questionnaire` to see all questions, or start asking questions directly."

/-- `start_new_assessment`: archive the existing state if it has answers,
then install a fresh empty state. -/
def start_new_assessment (fs : Option AssessmentState) (now : Now) : ToolOut :=
  let archives : List (String × FData) :=
    match fs with
    | some existing =>
      if existing.answers ≠ [] then [(archiveFileName now, FData.stateFile existing)] else []
    | none => []
  { message := startNewMessage,
    files := archives,
    saved := some (save_assessment (freshAssessment now) now) }

end Gov

/-! ### AI ideation agent: state store and tools
(examples/ai_ideation_agent/tools/tools.py) -/

namespace Canvas

/-- The persisted canvas state (`current_canvas.json`).  The fresh-state
dict carries `created`, `status`, `use_case_name`, `answers`, `metadata`;
`updated` is added by `save_canvas` and `export_files` (markdown and jira
file names) by `generate_canvas_export`. -/
structure CanvasState where
  created : String
  updated : Option String
  status : String
  use_case_name : String
  answers : List (String × Answer)
  metadata : List (String × String)
  export_files : Option (String × String)
deriving DecidableEq, Repr

/-- The Jira Epic payload written by `generate_canvas_export`
(`fields` and `canvas_metadata` of the JSON document). -/
structure JiraEpic where
  project_key : String
  issuetype : String
  summary : String
  description : String
  labels : List String
  generated : String
  use_case_name : String
  total_questions_answered : Nat
  compliance_flags : List String
deriving DecidableEq, Repr

/-- Content of a file written by a canvas tool. -/
inductive FData where
  | textFile (content : String)
  | stateFile (s : CanvasState)
  | jiraFile (e : JiraEpic)
deriving DecidableEq, Repr

/-- Result of one canvas tool invocation (message, non-state files
written, new persisted state or `none`). -/
structure ToolOut where
  message : String
  files : List (String × FData)
  saved : Option CanvasState
deriving DecidableEq, Repr

/-- The fresh canvas dict created when no state file exists (empty use
case name). -/
def freshCanvas (now : Now) : CanvasState :=
  { created := now.iso, updated := none, status := "in_progress",
    use_case_name := "", answers := [], metadata := [], export_files := none }

/-- `load_canvas`: the parsed state file if it exists, otherwise a fresh
in-memory state; no file is written. -/
def load_canvas (fs : Option CanvasState) (now : Now) :
    CanvasState × List (String × FData) :=
  (match fs with
   | some s => s
   | none => freshCanvas now, [])

/-- `save_canvas`: stamp the update time. -/
def save_canvas (s : CanvasState) (now : Now) : CanvasState :=
  { s with updated := some now.iso }

/-- The archive file name used by `start_new_canvas`. -/
def archiveFileName (now : Now) : String :=
  "canvas_archive_" ++ now.archiveTag ++ ".json"

/-- The hard-coded `SECTION_INFO` table (section id, name, description). -/
def SECTION_INFO : List (String × String × String) :=
  [("S1", "Stakeholders", "Identify key stakeholders and owners"),
   ("S2", "Problem & Goal", "Define the problem and success criteria"),
   ("S3", "Value Proposition", "Quantify the business value"),
   ("S4", "Classification", "Categorize the AI initiative"),
   ("S5", "Data Requirements", "Identify data sources and needs"),
   ("S6", "Data Privacy", "Quick privacy checklist"),
   ("S7", "IT Security", "Quick security checklist"),
   ("S8", "EU AI Act", "Quick regulatory checklist"),
   ("S9", "Summary & Next Steps", "Risks, approvals, and actions")]

/-- The confirmation message of `start_new_canvas`. -/
def startNewMessage (ucn : String) : String :=
  "New AI Use Case Canvas started!\n\n**Use Case:** " ++ ucn ++
    "\n\nThe canvas covers 9 sections:\n" ++
    String.intercalate "\n"
      (SECTION_INFO.map (fun p => "  " ++ p.1 ++ ". " ++ p.2.1 ++ " - " ++ p.2.2)) ++
    "\n\nUse `load_canvas_template` to see all questions, or start with Section 1."

/-- `start_new_canvas(use_case_name)`: archive the existing state if it
has answers, then install a fresh state named after the use case. -/
def start_new_canvas (fs : Option CanvasState) (now : Now) (use_case_name : String) : ToolOut :=
  let archives : List (String × FData) :=
    match fs with
    | some existing =>
      if existing.answers ≠ [] then [(archiveFileName now, FData.stateFile existing)] else []
    | none => []
  let fresh :=
    { created := now.iso, updated := none, status := "in_progress",
      use_case_name := use_case_name, answers := [], metadata := [], export_files := none }
  { message := startNewMessage use_case_name,
    files := archives,
    saved := some (save_canvas fresh now) }

/-- The not-found message of `save_answer`. -/
def questionNotFound (qid : String) : String :=
  "Error: Question " ++ sglq ++ qid ++ sglq ++ " not found in the canvas."

/-- The confirmation message of `save_answer`. -/
def save_answer_message (qid title sname disp : String)
    (answered total reqAnswered reqTotal : Nat) : String :=
  "Answer saved!\n\n**Question:** " ++ qid ++ " - " ++ title ++
    "\n**Section:** " ++ sname ++ "\n**Answer:** " ++ disp ++
    "\n\n**Progress:** " ++ toString answered ++ "/" ++ toString total ++ " total | " ++
    toString reqAnswered ++ "/" ++ toString reqTotal ++ " required"

/-- `save_answer(question_id, answer, notes)` of the canvas agent. -/
def save_answer (sections : List (String × QSection)) (fs : Option CanvasState)
    (now : Now) (question_id answer : String) (notes : Option String) : ToolOut :=
  let canvas := (load_canvas fs now).1
  match findQuestion sections question_id with
  | none => { message := questionNotFound question_id, files := [], saved := none }
  | some (question_title, section_name) =>
    let c2 :=
      { canvas with answers := alSet question_id ⟨answer, notes, now.iso⟩ canvas.answers }
    { message :=
        save_answer_message question_id question_title section_name (answerDisplay answer)
          c2.answers.length (total_questions sections)
          (required_answered sections (c2.answers.map Prod.fst)) (required_total sections),
      files := [],
      saved := some (save_canvas c2 now) }

/-- The section-id normalization shared by `get_section` and
`save_section_answers`: a bare number is prefixed with `S`. -/
def normSectionId (section_id : String) : String :=
  if pyStartsWith section_id "S" then section_id else "S" ++ section_id

/-- The not-found message of `save_section_answers` and `get_section`. -/
def sectionNotFound (sid : String) : String :=
  "Error: Section " ++ sglq ++ sid ++ sglq ++ " not found. Valid sections are S1-S9."

/-- The rejection message of `save_section_answers` for unknown question
ids.  The code prints `list(valid_questions)` of a Python `set`, whose
iteration order is unspecified; the embedding uses insertion order. -/
def invalidIdsMessage (sid : String) (invalid validKeys : List String) : String :=
  "Error: Invalid question IDs for " ++ sid ++ ": " ++ pyListRepr invalid ++
    ". Valid IDs: " ++ pyListRepr validKeys

/-- One display line of the batch-save confirmation:
`- **{qid}**: {title} = {answer[:50]}{'...' if len(answer) > 50 else ''}`. -/
def savedLine (qid title ans : String) : String :=
  "- **" ++ qid ++ "**: " ++ title ++ " = " ++ pyTake 50 ans ++
    (if pyLen ans > 50 then "..." else "")

/-- The confirmation message of `save_section_answers`. -/
def saveSectionMessage (n : Nat) (secNumber secName : String) (lines : List String)
    (answered total reqAnswered reqTotal : Nat) : String :=
  "Saved " ++ toString n ++ " answers for Section " ++ secNumber ++ ": " ++ secName ++
    "\n\n" ++ String.intercalate "\n" lines ++
    "\n\n**Progress:** " ++ toString answered ++ "/" ++ toString total ++ " total | " ++
    toString reqAnswered ++ "/" ++ toString reqTotal ++ " required"

/-- `save_section_answers(section_id, answers)`: validate every supplied
question id against the section before saving anything; on success store
all answers (notes `None`) and persist once. -/
def save_section_answers (sections : List (String × QSection)) (fs : Option CanvasState)
    (now : Now) (section_id : String) (answers : List (String × String)) : ToolOut :=
  let sid := normSectionId section_id
  let canvas := (load_canvas fs now).1
  match alGet sid sections with
  | none => { message := sectionNotFound sid, files := [], saved := none }
  | some sec =>
    let validKeys := sec.questions.map Prod.fst
    let invalid := (answers.map Prod.fst).filter (fun q => !validKeys.contains q)
    if invalid ≠ [] then
      { message := invalidIdsMessage sid invalid validKeys, files := [], saved := none }
    else
      let c2 :=
        { canvas with
          answers :=
            answers.foldl (fun acc p => alSet p.1 ⟨p.2, none, now.iso⟩ acc) canvas.answers }
      let lines :=
        answers.map (fun p =>
          savedLine p.1 (((alGet p.1 sec.questions).map Question.title).getD "") p.2)
      { message :=
          saveSectionMessage answers.length sec.number sec.name lines
            c2.answers.length (total_questions sections)
            (required_answered sections (c2.answers.map Prod.fst)) (required_total sections),
        files := [],
        saved := some (save_canvas c2 now) }

/-- The per-section rows of the canvas progress table (section name
truncated to 20 characters). -/
def progressRows (sections : List (String × QSection)) (answeredKeys : List String) : String :=
  sections.foldl
    (fun acc p =>
      let qs := p.2.questions
      acc ++ "| " ++ p.1 ++ ": " ++ pyTake 20 p.2.name ++ " | " ++ toString qs.length ++
        " | " ++ toString (qs.filter (fun qp => answeredKeys.contains qp.1)).length ++
        " | " ++ toString (qs.filter (fun qp => qp.2.required)).length ++ " | " ++
        toString (qs.filter (fun qp => qp.2.required && answeredKeys.contains qp.1)).length ++
        " |\n")
    ""

/-- `get_canvas_progress`: the rendered progress summary. -/
def get_canvas_progress (sections : List (String × QSection)) (fs : Option CanvasState)
    (now : Now) : String :=
  let canvas := (load_canvas fs now).1
  let answeredKeys := canvas.answers.map Prod.fst
  let c := progressCounts sections answeredKeys
  "# Canvas Progress\n\n" ++
    "**Use Case:** " ++ canvas.use_case_name ++ "\n" ++
    "**Started:** " ++ canvas.created ++ "\n" ++
    "**Last Updated:** " ++ canvas.updated.getD "Not yet" ++ "\n" ++
    "**Status:** " ++ canvas.status ++ "\n\n" ++
    "## Section Progress\n\n" ++
    "| Section | Total | Answered | Required | Req. Done |\n" ++
    "|---------|-------|----------|----------|----------|\n" ++
    progressRows sections answeredKeys ++
    "\n**Overall:** " ++ toString c.answered ++ "/" ++ toString c.total ++
    " (" ++ toString (overall_pct c.total c.answered) ++ "%)\n" ++
    "**Required:** " ++ toString c.reqAnswered ++ "/" ++ toString c.required ++ " answered\n" ++
    (if c.reqAnswered < c.required then
      "\n### Unanswered Required Questions\n\n" ++ unansweredRequired sections answeredKeys
    else "")

end Canvas

namespace Canvas

/-- The fail-closed message of `generate_canvas_export`. -/
def cannot_generate_export (missing : List String) : String :=
  "Cannot generate export - the following required questions are unanswered:\n\n" ++
    String.intercalate "\n" (missing.map (fun q => "- " ++ q)) ++
    "\n\nPlease answer all required questions before generating the export."

/-- The per-section body of the markdown export. -/
def mdSections (sections : List (String × QSection)) (answers : List (String × Answer)) :
    String :=
  sections.foldl
    (fun acc p =>
      acc ++ "## " ++ p.2.name ++ "\n\n" ++
        p.2.questions.foldl
          (fun a2 qp =>
            let answerText :=
              match alGet qp.1 answers with
              | some a => a.answer
              | none => "*Not answered*"
            let notes := (alGet qp.1 answers).bind (fun a => a.notes)
            a2 ++ "### " ++ qp.2.title ++ "\n\n**" ++ answerText ++ "**\n\n" ++
              (if optStrTruthy notes then "*Notes: " ++ notes.getD "" ++ "*\n\n" else ""))
          "" ++
        "---\n\n")
    ""

/-- The compliance flags derived inside `generate_canvas_export` (equality
membership tests, unlike the substring rules of the governance report). -/
def complianceFlags (answers : List (String × Answer)) : List String :=
  (if (["Yes", "Uncertain"] : List String).contains (getAnsD answers "Q6.1" "") then
    ["Personal data involved"]
  else []) ++
  (if getAnsD answers "Q6.2" "" = "Yes" then ["Special category data"] else []) ++
  (if (["High", "Unacceptable"] : List String).contains (getAnsD answers "Q8.1" "") then
    ["EU AI Act: " ++ getAnsD answers "Q8.1" ""]
  else [])

/-- The compliance block appended to the markdown export. -/
def mdComplianceBlock (flags : List String) : String :=
  "## Compliance Flags\n\n" ++
    (if flags ≠ [] then String.join (flags.map (fun f => "- " ++ f ++ "\n"))
     else "No significant compliance flags.\n") ++
    "\n---\n*Generated by AI Ideation Agent*\n"

/-- The full markdown export document. -/
def mdExport (sections : List (String × QSection)) (answers : List (String × Answer))
    (ucn ts : String) : String :=
  "# AI Use Case Canvas: " ++ ucn ++ "\n\n**Generated:** " ++ ts ++
    "\n**Status:** Complete\n\n---\n\n" ++
    mdSections sections answers ++
    mdComplianceBlock (complianceFlags answers)

/-- The Jira-markup description assembled from specific answers
(`N/A` for any that is absent). -/
def jiraDescription (answers : List (String × Answer)) : String :=
  let g := fun qid => getAnsD answers qid "N/A"
  "h2. Problem Statement\n" ++ g "Q2.1" ++ "\n\n" ++
    "h2. Goal\n" ++ g "Q2.2" ++ "\n\n" ++
    "h2. Success Metrics\n" ++ g "Q2.3" ++ "\n\n" ++
    "h2. Stakeholders\n" ++
    "* *Problem Owner:* " ++ g "Q1.1" ++ "\n" ++
    "* *Budget Owner:* " ++ g "Q1.2" ++ "\n" ++
    "* *Technical Owner:* " ++ g "Q1.3" ++ "\n" ++
    "* *Executive Sponsor:* " ++ g "Q1.4" ++ "\n\n" ++
    "h2. Value Proposition\n" ++
    "* *Type:* " ++ g "Q3.1" ++ "\n" ++
    "* *Qualitative:* " ++ g "Q3.2" ++ "\n" ++
    "* *Quantitative:* " ++ g "Q3.3" ++ "\n" ++
    "* *Time to Value:* " ++ g "Q3.4" ++ "\n\n" ++
    "h2. Classification\n" ++
    "* *AI Type:* " ++ g "Q4.1" ++ "\n" ++
    "* *Business Unit:* " ++ g "Q4.2" ++ "\n" ++
    "* *Innovation Category:* " ++ g "Q4.4" ++ "\n\n" ++
    "h2. Data Requirements\n" ++
    "* *Sources:* " ++ g "Q5.1" ++ "\n" ++
    "* *Data Types:* " ++ g "Q5.2" ++ "\n" ++
    "* *Volume:* " ++ g "Q5.4" ++ "\n\n" ++
    "h2. Compliance\n" ++
    "* *Personal Data:* " ++ g "Q6.1" ++ "\n" ++
    "* *Data Classification:* " ++ g "Q7.1" ++ "\n" ++
    "* *EU AI Act Risk:* " ++ g "Q8.1" ++ "\n" ++
    "* *Human Oversight:* " ++ g "Q8.2" ++ "\n\n" ++
    "h2. Next Steps\n" ++ g "Q9.3" ++ "\n\n" ++
    "h2. Key Risks\n" ++ g "Q9.1" ++ "\n"

/-- The label list of the Jira Epic: the fixed label plus the non-empty
normalized answers of Q4.1 (spaces to hyphens), Q4.2 (spaces to hyphens,
truncated to 20) and Q4.4. -/
def jiraLabels (answers : List (String × Answer)) : List String :=
  let idea_type := pyReplaceAll (pyLower (getAnsD answers "Q4.1" "")) " " "-"
  let business_unit := pyTake 20 (pyReplaceAll (pyLower (getAnsD answers "Q4.2" "")) " " "-")
  let innovation := pyLower (getAnsD answers "Q4.4" "")
  ["ai-use-case"] ++
    (if idea_type ≠ "" then [idea_type] else []) ++
    (if business_unit ≠ "" then [business_unit] else []) ++
    (if innovation ≠ "" then [innovation] else [])

/-- The success message of `generate_canvas_export`. -/
def exportSuccessMessage (ucn mdPath jsonPath : String) (nFlags nAnswers : Nat) : String :=
  "Canvas export generated successfully!\n\n**Use Case:** " ++ ucn ++
    "\n\n**Files Created:**\n- Markdown: `" ++ mdPath ++ "`\n- Jira Epic JSON: `" ++
    jsonPath ++ "`\n\n**Compliance Flags:** " ++ toString nFlags ++
    "\n**Questions Answered:** " ++ toString nAnswers ++
    "\n\nThe Jira JSON can be imported using Jira" ++ sglq ++
    "s REST API or bulk import tools."

/-- `generate_canvas_export(project_key)`: fail closed if a required
question is unanswered; otherwise write the markdown export and the Jira
Epic JSON and persist the state as completed with the export file names. -/
def generate_canvas_export (sections : List (String × QSection)) (fs : Option CanvasState)
    (now : Now) (project_key : String) : ToolOut :=
  let canvas := (load_canvas fs now).1
  let answers := canvas.answers
  let missing := missing_required sections answers
  if missing ≠ [] then
    { message := cannot_generate_export missing, files := [], saved := none }
  else
    let use_case_name := canvas.use_case_name
    let flags := complianceFlags answers
    let md := mdExport sections answers use_case_name now.stamp
    let epic : JiraEpic :=
      { project_key := project_key,
        issuetype := "Epic",
        summary := "AI Use Case: " ++ use_case_name,
        description := jiraDescription answers,
        labels := jiraLabels answers,
        generated := now.stamp,
        use_case_name := use_case_name,
        total_questions_answered := answers.length,
        compliance_flags := flags }
    let sn := safe_name use_case_name
    let md_filename := "canvas_" ++ sn ++ "_" ++ now.dateTag ++ ".md"
    let json_filename := "jira_epic_" ++ sn ++ "_" ++ now.dateTag ++ ".json"
    let c2 :=
      { canvas with
        status := "completed",
        export_files := some (md_filename, json_filename) }
    { message :=
        exportSuccessMessage use_case_name (OUTPUT_DIR ++ "/" ++ md_filename)
          (OUTPUT_DIR ++ "/" ++ json_filename) flags.length answers.length,
      files := [(md_filename, FData.textFile md), (json_filename, FData.jiraFile epic)],
      saved := some (save_canvas c2 now) }

end Canvas

/-! ### Lemmas about the dict operations -/

theorem alGet_alSet_self {β : Type} (k : String) (v : β) (l : List (String × β)) :
    alGet k (alSet k v l) = some v := by
  induction l with
  | nil => simp [alSet, alGet]
  | cons p rest ih =>
    obtain ⟨k2, v2⟩ := p
    by_cases h : k2 = k
    · simp [alSet, alGet, h]
    · simp [alSet, alGet, h, ih]

theorem alGet_alSet_ne {β : Type} (k1 k2 : String) (v : β) (l : List (String × β))
    (h : k1 ≠ k2) : alGet k2 (alSet k1 v l) = alGet k2 l := by
  induction l with
  | nil => simp [alSet, alGet, h]
  | cons p rest ih =>
    obtain ⟨k3, v3⟩ := p
    by_cases h3 : k3 = k1
    · subst h3
      simp [alSet, alGet, h]
    · simp only [alSet, if_neg h3]
      by_cases h4 : k3 = k2
      · simp [alGet, h4]
      · simp [alGet, h4, ih]

theorem keys_alSet_mem {β : Type} (k : String) (v : β) (l : List (String × β))
    (h : k ∈ l.map Prod.fst) : (alSet k v l).map Prod.fst = l.map Prod.fst := by
  induction l with
  | nil => simp at h
  | cons p rest ih =>
    obtain ⟨k2, v2⟩ := p
    by_cases h2 : k2 = k
    · simp [alSet, h2]
    · have : k ∈ rest.map Prod.fst := by
        simp only [List.map_cons, List.mem_cons] at h
        rcases h with h | h
        · exact absurd h.symm h2
        · exact h
      simp [alSet, h2, ih this]

theorem keys_alSet_not_mem {β : Type} (k : String) (v : β) (l : List (String × β))
    (h : k ∉ l.map Prod.fst) : (alSet k v l).map Prod.fst = l.map Prod.fst ++ [k] := by
  induction l with
  | nil => simp [alSet]
  | cons p rest ih =>
    obtain ⟨k2, v2⟩ := p
    simp only [List.map_cons, List.mem_cons] at h
    push_neg at h
    simp [alSet, Ne.symm h.1, ih h.2]

theorem length_alSet_mem {β : Type} (k : String) (v : β) (l : List (String × β))
    (h : k ∈ l.map Prod.fst) : (alSet k v l).length = l.length := by
  have := keys_alSet_mem k v l h
  have h1 : ((alSet k v l).map Prod.fst).length = (l.map Prod.fst).length := by rw [this]
  simpa using h1

theorem mem_keys_alSet_self {β : Type} (k : String) (v : β) (l : List (String × β)) :
    k ∈ (alSet k v l).map Prod.fst := by
  by_cases h : k ∈ l.map Prod.fst
  · rw [keys_alSet_mem k v l h]; exact h
  · rw [keys_alSet_not_mem k v l h]; simp

theorem mem_keys_alSet {β : Type} {x k : String} {v : β} {l : List (String × β)}
    (h : x ∈ (alSet k v l).map Prod.fst) : x ∈ l.map Prod.fst ∨ x = k := by
  by_cases hm : k ∈ l.map Prod.fst
  · rw [keys_alSet_mem k v l hm] at h; exact Or.inl h
  · rw [keys_alSet_not_mem k v l hm] at h
    simpa using h

theorem nodup_keys_alSet {β : Type} (k : String) (v : β) (l : List (String × β))
    (h : (l.map Prod.fst).Nodup) : ((alSet k v l).map Prod.fst).Nodup := by
  by_cases hm : k ∈ l.map Prod.fst
  · rwa [keys_alSet_mem k v l hm]
  · rw [keys_alSet_not_mem k v l hm]
    rw [List.nodup_append]
    refine ⟨h, List.nodup_singleton k, ?_⟩
    intro a ha hb
    simp only [List.mem_singleton] at hb
    subst hb
    exact hm ha

theorem alSet_entry_eq {β : Type} {k : String} {v : β} {l : List (String × β)}
    (hnd : (l.map Prod.fst).Nodup) :
    ∀ p ∈ alSet k v l, p.1 = k → p.2 = v := by
  induction l with
  | nil =>
    intro p hp _
    simp only [alSet, List.mem_singleton] at hp
    subst hp; rfl
  | cons q rest ih =>
    obtain ⟨k2, v2⟩ := q
    simp only [List.map_cons, List.nodup_cons] at hnd
    intro p hp hk
    by_cases h2 : k2 = k
    · subst h2
      simp only [alSet, if_pos rfl, eq_self_iff_true, if_true, List.mem_cons] at hp
      cases hp with
      | inl h => rw [h]
      | inr h =>
        exfalso
        exact hnd.1 (hk ▸ (List.mem_map_of_mem Prod.fst h))
    · simp only [alSet, if_neg h2, List.mem_cons] at hp
      cases hp with
      | inl h =>
        rw [h] at hk
        exact absurd hk h2
      | inr h => exact ih hnd.2 p h hk

theorem keys_alModify {β : Type} (k : String) (f : β → β) (l : List (String × β)) :
    (alModify k f l).map Prod.fst = l.map Prod.fst := by
  induction l with
  | nil => simp [alModify]
  | cons p rest ih =>
    obtain ⟨k2, v2⟩ := p
    by_cases h : k2 = k
    · simp [alModify, h]
    · simp [alModify, h, ih]

theorem alGet_alModify_self {β : Type} (k : String) (f : β → β) (l : List (String × β)) :
    alGet k (alModify k f l) = (alGet k l).map f := by
  induction l with
  | nil => simp [alModify, alGet]
  | cons p rest ih =>
    obtain ⟨k2, v2⟩ := p
    by_cases h : k2 = k
    · simp [alModify, alGet, h]
    · simp [alModify, alGet, h, ih]

theorem alGet_alModify_ne {β : Type} (k1 k2 : String) (f : β → β) (l : List (String × β))
    (h : k1 ≠ k2) : alGet k2 (alModify k1 f l) = alGet k2 l := by
  induction l with
  | nil => simp [alModify]
  | cons p rest ih =>
    obtain ⟨k3, v3⟩ := p
    by_cases h3 : k3 = k1
    · subst h3
      simp [alModify, alGet, h]
    · simp only [alModify, if_neg h3]
      by_cases h4 : k3 = k2
      · simp [alGet, h4]
      · simp [alGet, h4, ih]

/-! ### The question-id uniqueness invariant of the parsers -/

/-- Concatenation of the question-id keys of all sections, in outline
order.  Its being duplicate-free says exactly that no id occurs in two
distinct sections and no id occurs twice within one section. -/
def allQKeys : List (String × QSection) → List String
  | [] => []
  | p :: rest => p.2.questions.map Prod.fst ++ allQKeys rest

theorem allQKeys_cons (p : String × QSection) (rest : List (String × QSection)) :
    allQKeys (p :: rest) = p.2.questions.map Prod.fst ++ allQKeys rest := rfl

theorem allQKeys_alSet_empty (k num name : String) (l : List (String × QSection)) :
    List.Sublist (allQKeys (alSet k ⟨num, name, []⟩ l)) (allQKeys l) := by
  induction l with
  | nil => simp [alSet, allQKeys]
  | cons p rest ih =>
    obtain ⟨k2, v2⟩ := p
    by_cases h : k2 = k
    · simp only [alSet, if_pos h, allQKeys_cons]
      exact List.sublist_append_right _ _
    · simp only [alSet, if_neg h, allQKeys_cons]
      exact ih.append_left _

theorem mem_allQKeys_storeSet {k qid : String} {q : Question} {l : List (String × QSection)} :
    ∀ x ∈ allQKeys
        (alModify k (fun sec => { sec with questions := alSet qid q sec.questions }) l),
      x ∈ allQKeys l ∨ x = qid := by
  induction l with
  | nil => intro x hx; simp [alModify, allQKeys] at hx
  | cons p rest ih =>
    obtain ⟨k2, v2⟩ := p
    intro x hx
    by_cases h : k2 = k
    · simp only [alModify, if_pos h, allQKeys_cons, List.mem_append] at hx
      rcases hx with hx | hx
      · rcases mem_keys_alSet hx with h1 | h1
        · exact Or.inl (by rw [allQKeys_cons, List.mem_append]; exact Or.inl h1)
        · exact Or.inr h1
      · exact Or.inl (by rw [allQKeys_cons, List.mem_append]; exact Or.inr hx)
    · simp only [alModify, if_neg h, allQKeys_cons, List.mem_append] at hx
      rcases hx with hx | hx
      · exact Or.inl (by rw [allQKeys_cons, List.mem_append]; exact Or.inl hx)
      · rcases ih x hx with h1 | h1
        · exact Or.inl (by rw [allQKeys_cons, List.mem_append]; exact Or.inr h1)
        · exact Or.inr h1

theorem nodup_allQKeys_storeSet {k qid : String} {q : Question} {l : List (String × QSection)}
    (hnd : (allQKeys l).Nodup) (hq : qid ∉ allQKeys l) :
    (allQKeys
        (alModify k (fun sec => { sec with questions := alSet qid q sec.questions }) l)).Nodup := by
  induction l with
  | nil => simp [alModify, allQKeys]
  | cons p rest ih =>
    obtain ⟨k2, v2⟩ := p
    rw [allQKeys_cons, List.nodup_append] at hnd
    obtain ⟨h1, h2, h3⟩ := hnd
    rw [allQKeys_cons, List.mem_append] at hq
    push_neg at hq
    by_cases h : k2 = k
    · simp only [alModify, if_pos h, allQKeys_cons]
      rw [keys_alSet_not_mem qid q v2.questions hq.1]
      rw [List.append_assoc, List.singleton_append, List.nodup_middle]
      rw [List.nodup_cons]
      constructor
      · rw [List.mem_append]
        push_neg
        exact hq
      · rw [List.nodup_append]
        exact ⟨h1, h2, h3⟩
    · simp only [alModify, if_neg h, allQKeys_cons]
      rw [List.nodup_append]
      refine ⟨h1, ih h2 hq.2, ?_⟩
      intro a ha hb
      rcases mem_allQKeys_storeSet a hb with hc | hc
      · exact h3 ha hc
      · rw [hc] at ha
        exact hq.1 ha

theorem allQKeys_alModify_mod (k qid : String) (g : Question → Question)
    (l : List (String × QSection)) :
    allQKeys (alModify k (fun sec => { sec with questions := alModify qid g sec.questions }) l)
      = allQKeys l := by
  induction l with
  | nil => simp [alModify]
  | cons p rest ih =>
    obtain ⟨k2, v2⟩ := p
    by_cases h : k2 = k
    · simp only [alModify, if_pos h, allQKeys_cons]
      rw [keys_alModify]
    · simp only [alModify, if_neg h, allQKeys_cons, ih]

theorem allQKeys_foldl_mod (ks : List String) (qid : String) (g : Question → Question)
    (l : List (String × QSection)) :
    allQKeys
        (ks.foldl
          (fun ss k =>
            alModify k (fun sec => { sec with questions := alModify qid g sec.questions }) ss)
          l)
      = allQKeys l := by
  induction ks generalizing l with
  | nil => rfl
  | cons k ks ih => rw [List.foldl_cons, ih, allQKeys_alModify_mod]

/-! ### Disambiguation of the line dispatch -/

theorem beginsWith_iff (ps : List Char) :
    ∀ cs, beginsWith ps cs = true ↔ ∃ r, cs = ps ++ r := by
  induction ps with
  | nil => intro cs; simp [beginsWith]
  | cons p ps ih =>
    intro cs
    cases cs with
    | nil => simp [beginsWith]
    | cons c cs =>
      simp only [beginsWith, Bool.and_eq_true, beq_iff_eq, List.cons_append,
        List.cons_eq_cons, ih]
      constructor
      · rintro ⟨rfl, r, rfl⟩
        exact ⟨r, rfl, rfl⟩
      · rintro ⟨r, rfl, rfl⟩
        exact ⟨rfl, r, rfl⟩

theorem beginsWith_append_left {p r cs : List Char} (h : beginsWith (p ++ r) cs = true) :
    beginsWith p cs = true := by
  obtain ⟨r2, rfl⟩ := (beginsWith_iff _ _).mp h
  exact (beginsWith_iff _ _).mpr ⟨r ++ r2, by rw [List.append_assoc]⟩

/-- A line that begins with `### Q` does not begin with `## Section`. -/
theorem not_section_of_q {cs : List Char} (h : beginsWith "### Q".toList cs = true) :
    beginsWith "## Section".toList cs = false := by
  obtain ⟨r, rfl⟩ := (beginsWith_iff _ _).mp h
  rfl

/-- A line that begins with `## Section` does not begin with `### Q`. -/
theorem not_q_of_section {cs : List Char} (h : beginsWith "## Section".toList cs = true) :
    beginsWith "### Q".toList cs = false := by
  obtain ⟨r, rfl⟩ := (beginsWith_iff _ _).mp h
  rfl

theorem matchQ_none_of_not_begins {s : String}
    (h : beginsWith "### Q".toList s.toList = false) : matchQ s = none := by
  have h2 : beginsWith [Char.ofNat 35, Char.ofNat 35, Char.ofNat 35, ' ', 'Q'] s.data = false := h
  simp [matchQ, h2]

theorem matchQ_none_of_not_starts {s : String} (h : ¬pyStartsWith s "### Q" = true) :
    matchQ s = none :=
  matchQ_none_of_not_begins (by
    have : pyStartsWith s "### Q" = false := Bool.not_eq_true _ ▸ eq_false_of_ne_true h
    exact this)

theorem matchQ_none_of_section {s : String} (h : pyStartsWith s "## Section" = true) :
    matchQ s = none :=
  matchQ_none_of_not_begins (not_q_of_section h)

theorem matchSection_none_of_not_begins {s : String}
    (h : beginsWith "## Section ".toList s.toList = false) : matchSection s = none := by
  have h2 :
      beginsWith [Char.ofNat 35, Char.ofNat 35, ' ', 'S', 'e', 'c', 't', 'i', 'o', 'n', ' ']
        s.data = false := h
  simp [matchSection, h2]

theorem matchSection_startsWith {s : String} {x : String × String}
    (h : matchSection s = some x) : pyStartsWith s "## Section" = true := by
  by_cases hb : beginsWith "## Section ".toList s.toList = true
  · have he : "## Section".toList ++ [' '] = "## Section ".toList := rfl
    exact beginsWith_append_left (p := "## Section".toList) (r := [' ']) (he ▸ hb)
  · rw [matchSection_none_of_not_begins (eq_false_of_ne_true hb)] at h
    exact absurd h (by simp)

theorem matchQ_startsWith {s : String} {x : String × String}
    (h : matchQ s = some x) : pyStartsWith s "### Q" = true := by
  by_cases hb : beginsWith "### Q".toList s.toList = true
  · exact hb
  · rw [matchQ_none_of_not_begins (eq_false_of_ne_true hb)] at h
    exact absurd h (by simp)

/-- Invariant carried through the parse fold for the uniqueness claim: the
stored question ids are duplicate-free, every stored id occurs among the
ids of the question headers seen so far, and the id of the in-progress
question was seen but is not yet stored. -/
structure ParseInv (st : PState) (seen : List String) : Prop where
  nodupAll : (allQKeys st.sections).Nodup
  subSeen : ∀ x ∈ allQKeys st.sections, x ∈ seen
  curFresh : ∀ q, st.curQ = some q → q.id ∉ allQKeys st.sections ∧ q.id ∈ seen

theorem storeCur_facts {st : PState} {seen : List String} (hInv : ParseInv st seen) :
    (allQKeys (storeCur st).sections).Nodup ∧
      ∀ x ∈ allQKeys (storeCur st).sections, x ∈ seen := by
  unfold storeCur
  cases hq : st.curQ with
  | none => exact ⟨hInv.nodupAll, hInv.subSeen⟩
  | some q =>
    cases hs : st.curSection with
    | none => exact ⟨hInv.nodupAll, hInv.subSeen⟩
    | some k =>
      obtain ⟨hfresh, hseen⟩ := hInv.curFresh q hq
      constructor
      · exact nodup_allQKeys_storeSet hInv.nodupAll hfresh
      · intro x hx
        rcases mem_allQKeys_storeSet x hx with h | h
        · exact hInv.subSeen x h
        · rw [h]; exact hseen

theorem storeCur_curQ (st : PState) : (storeCur st).curQ = st.curQ := by
  unfold storeCur
  split
  · rfl
  · rfl

theorem mem_allQKeys_storeCur {st : PState} {x : String}
    (hx : x ∈ allQKeys (storeCur st).sections) :
    x ∈ allQKeys st.sections ∨ ∃ q, st.curQ = some q ∧ x = q.id := by
  unfold storeCur at hx
  cases hq : st.curQ with
  | none => rw [hq] at hx; exact Or.inl hx
  | some q =>
    rw [hq] at hx
    cases hs : st.curSection with
    | none => rw [hs] at hx; exact Or.inl hx
    | some k =>
      rw [hs] at hx
      rcases mem_allQKeys_storeSet x hx with h | h
      · exact Or.inl h
      · exact Or.inr ⟨q, rfl, h⟩

theorem mutateCur_inv {st : PState} {seen : List String} (f : Question → Question)
    (hid : ∀ q, (f q).id = q.id) (hInv : ParseInv st seen) :
    ParseInv (mutateCur st f) seen := by
  unfold mutateCur
  cases hq : st.curQ with
  | none => exact hInv
  | some q =>
    have hk :
        allQKeys
            (st.aliasKeys.foldl
              (fun ss k =>
                alModify k
                  (fun sec => { sec with questions := alModify (f q).id (fun _ => f q) sec.questions })
                  ss)
              st.sections)
          = allQKeys st.sections := allQKeys_foldl_mod _ _ _ _
    refine ⟨?_, ?_, ?_⟩
    · rw [hk]; exact hInv.nodupAll
    · intro x hx
      rw [hk] at hx
      exact hInv.subSeen x hx
    · intro q2 hq2
      simp only [Option.some_inj] at hq2
      rw [hk]
      rw [← hq2, hid q]
      exact hInv.curFresh q hq

/-- The question id contributed by one raw line: the id captured by the
question-header regex on the stripped line, if any. -/
def lineQId (l : String) : Option String := (matchQ (pyStrip l)).map Prod.fst

/-- All question-header ids of a document, in order. -/
def docQIds (lines : List String) : List String := lines.filterMap lineQId

theorem inv_step (st : PState) (seen : List String) (l : String)
    (hInv : ParseInv st seen)
    (hwf : pyStartsWith (pyStrip l) "### Q" = true → (matchQ (pyStrip l)).isSome = true)
    (hfresh : ∀ qid, lineQId l = some qid → qid ∉ seen) :
    ParseInv (questionnaireStep st l) (seen ++ (lineQId l).toList) := by
  by_cases hsec : pyStartsWith (pyStrip l) "## Section" = true
  · have hqnone : matchQ (pyStrip l) = none := matchQ_none_of_section hsec
    have hlq : lineQId l = none := by simp [lineQId, hqnone]
    rw [hlq]
    simp only [Option.toList_none, List.append_nil]
    simp only [questionnaireStep]
    rw [if_pos hsec]
    cases hm : matchSection (pyStrip l) with
    | none => exact hInv
    | some nn =>
      obtain ⟨num, name⟩ := nn
      have hsub := allQKeys_alSet_empty ("S" ++ num) num name st.sections
      refine ⟨?_, ?_, ?_⟩
      · exact hInv.nodupAll.sublist hsub
      · intro x hx
        exact hInv.subSeen x (hsub.subset hx)
      · intro q hq
        obtain ⟨h1, h2⟩ := hInv.curFresh q hq
        exact ⟨fun hx => h1 (hsub.subset hx), h2⟩
  · simp only [questionnaireStep]
    rw [if_neg hsec]
    by_cases hqb : pyStartsWith (pyStrip l) "### Q" = true
    · have hs := hwf hqb
      obtain ⟨x, hm⟩ := Option.isSome_iff_exists.mp hs
      obtain ⟨qid, title⟩ := x
      have hlq : lineQId l = some qid := by simp [lineQId, hm]
      rw [hlq]
      simp only [lineStepRest]
      rw [if_pos hqb, hm]
      obtain ⟨hnodup, hsub⟩ := storeCur_facts hInv
      have hqidseen : qid ∉ seen := hfresh qid hlq
      refine ⟨?_, ?_, ?_⟩
      · exact hnodup
      · intro x hx
        exact List.mem_append_left _ (hsub x hx)
      · intro q2 hq2
        have hq2e : q2 = newQuestion qid title := by simpa using hq2.symm
        subst hq2e
        constructor
        · intro hx
          exact hqidseen (hsub _ hx)
        · exact List.mem_append_right _ (by simp [newQuestion])
    · have hqnone := matchQ_none_of_not_starts hqb
      have hlq : lineQId l = none := by simp [lineQId, hqnone]
      rw [hlq]
      simp only [Option.toList_none, List.append_nil]
      simp only [lineStepRest]
      rw [if_neg hqb]
      split_ifs with h1 h2 h3 h4
      · exact mutateCur_inv _ (fun q => rfl) hInv
      · exact mutateCur_inv _ (fun q => rfl) hInv
      · exact mutateCur_inv _ (fun q => rfl) hInv
      · exact mutateCur_inv _ (fun q => rfl) hInv
      · exact hInv

theorem inv_foldl (lines : List String) :
    ∀ (st : PState) (seen : List String), ParseInv st seen →
      (∀ l ∈ lines,
        pyStartsWith (pyStrip l) "### Q" = true → (matchQ (pyStrip l)).isSome = true) →
      (seen ++ docQIds lines).Nodup →
      ParseInv (lines.foldl questionnaireStep st) (seen ++ docQIds lines) := by
  induction lines with
  | nil =>
    intro st seen hInv _ _
    simpa [docQIds] using hInv
  | cons l ls ih =>
    intro st seen hInv hwf hnd
    have hd : docQIds (l :: ls) = (lineQId l).toList ++ docQIds ls := by
      cases hq : lineQId l <;> simp [docQIds, List.filterMap_cons, hq]
    have hfresh : ∀ qid, lineQId l = some qid → qid ∉ seen := by
      intro qid hq hmem
      rw [hd, hq] at hnd
      have hdisj := (List.nodup_append.mp hnd).2.2
      exact hdisj hmem (List.mem_append_left _ (by simp))
    have hstep := inv_step st seen l hInv (hwf l (by simp)) hfresh
    rw [hd, ← List.append_assoc, List.foldl_cons]
    exact ih _ _ hstep (fun l2 h2 => hwf l2 (List.mem_cons_of_mem _ h2))
      (by rw [hd, ← List.append_assoc] at hnd; exact hnd)

/-- Uniqueness of ids over the whole parse, conditional on every question
header being well formed and on the header ids being pairwise distinct. -/
theorem parse_questionnaire_nodup (content : String)
    (hwf : ∀ l ∈ pySplitChar '\n' content,
      pyStartsWith (pyStrip l) "### Q" = true → (matchQ (pyStrip l)).isSome = true)
    (hnd : (docQIds (pySplitChar '\n' content)).Nodup) :
    (allQKeys (parse_questionnaire content)).Nodup := by
  have hbase : ParseInv initPState [] := by
    refine ⟨?_, ?_, ?_⟩
    · simp [initPState, allQKeys]
    · intro x hx; simp [initPState, allQKeys] at hx
    · intro q hq; simp [initPState] at hq
  have h := inv_foldl (pySplitChar '\n' content) initPState [] hbase hwf (by simpa using hnd)
  rw [List.nil_append] at h
  exact (storeCur_facts h).1

/-! ### Concrete fixtures used by witnesses and counterexamples -/

/-- A fixed instant, preformatted as the tools format it. -/
def testNow : Now :=
  { iso := "2025-01-01T12:00:00", stamp := "2025-01-01 12:00",
    dateTag := "20250101", archiveTag := "20250101_120000" }

/-- A one-section outline with a single required question. -/
def sampleSecs : List (String × QSection) :=
  [("S1",
    { number := "1", name := "General",
      questions :=
        [("Q1.1",
          { id := "Q1.1", title := "Name", question := "What is the name?",
            qtype := "text", required := true, options := none })] })]

/-! ### The claims -/

/-- C8: the overall progress percentage computed by the progress tools
(`get_assessment_progress` and `get_canvas_progress`, which share
`progressCounts` and `overall_pct` here) is 0 whenever the outline has a
total question count of 0; the guarded expression never divides by a
non-zero total in that case. -/
theorem claim8_zero_total_pct (sections : List (String × QSection))
    (answeredKeys : List String)
    (h : (progressCounts sections answeredKeys).total = 0) :
    overall_pct (progressCounts sections answeredKeys).total
      (progressCounts sections answeredKeys).answered = 0 := by
  rw [h]
  simp [overall_pct]

theorem claim8_witness :
    (progressCounts [] []).total = 0 ∧
      overall_pct (progressCounts [] []).total (progressCounts [] []).answered = 0 :=
  ⟨rfl, claim8_zero_total_pct [] [] rfl⟩

/-- C10: loading the state is read-only.  `load_assessment` and
`load_canvas` write no file; on an absent state file they return a fresh
in-memory state with status `in_progress` and an empty answer mapping,
and on a present file they return its parsed content unchanged. -/
theorem claim10_load_readonly (now : Now) (gs : Gov.AssessmentState)
    (cs : Canvas.CanvasState) :
    (Gov.load_assessment none now).2 = [] ∧
    (Gov.load_assessment (some gs) now).2 = [] ∧
    (Gov.load_assessment (some gs) now).1 = gs ∧
    (Gov.load_assessment none now).1.status = "in_progress" ∧
    (Gov.load_assessment none now).1.answers = [] ∧
    (Gov.load_assessment none now).1.created = now.iso ∧
    (Canvas.load_canvas none now).2 = [] ∧
    (Canvas.load_canvas (some cs) now).2 = [] ∧
    (Canvas.load_canvas (some cs) now).1 = cs ∧
    (Canvas.load_canvas none now).1.status = "in_progress" ∧
    (Canvas.load_canvas none now).1.answers = [] :=
  ⟨rfl, rfl, rfl, rfl, rfl, rfl, rfl, rfl, rfl, rfl, rfl⟩

/-- C1: report/export generation fails closed.  When at least one required
question id is absent from the answer mapping, `generate_assessment_report`
and `generate_canvas_export` return the cannot-generate message listing
the missing questions, write no file, and do not touch the persisted
state. -/
theorem claim1_generate_fails_closed
    (gsec : List (String × QSection)) (gfs : Option Gov.AssessmentState) (gnow : Now)
    (gucn gan : Option String)
    (csec : List (String × QSection)) (cfs : Option Canvas.CanvasState) (cnow : Now)
    (cpk : String)
    (hg : missing_required gsec (Gov.load_assessment gfs gnow).1.answers ≠ [])
    (hc : missing_required csec (Canvas.load_canvas cfs cnow).1.answers ≠ []) :
    ((Gov.generate_assessment_report gsec gfs gnow gucn gan).message
        = Gov.cannot_generate_report
            (missing_required gsec (Gov.load_assessment gfs gnow).1.answers) ∧
      (Gov.generate_assessment_report gsec gfs gnow gucn gan).files = [] ∧
      (Gov.generate_assessment_report gsec gfs gnow gucn gan).saved = none) ∧
    ((Canvas.generate_canvas_export csec cfs cnow cpk).message
        = Canvas.cannot_generate_export
            (missing_required csec (Canvas.load_canvas cfs cnow).1.answers) ∧
      (Canvas.generate_canvas_export csec cfs cnow cpk).files = [] ∧
      (Canvas.generate_canvas_export csec cfs cnow cpk).saved = none) := by
  constructor
  · simp only [Gov.generate_assessment_report]
    rw [if_pos hg]
    exact ⟨rfl, rfl, rfl⟩
  · simp only [Canvas.generate_canvas_export]
    rw [if_pos hc]
    exact ⟨rfl, rfl, rfl⟩

theorem claim1_witness :
    (missing_required sampleSecs (Gov.load_assessment none testNow).1.answers ≠ [] ∧
      missing_required sampleSecs (Canvas.load_canvas none testNow).1.answers ≠ []) ∧
    ((Gov.generate_assessment_report sampleSecs none testNow none none).files = [] ∧
      (Gov.generate_assessment_report sampleSecs none testNow none none).saved = none) ∧
    ((Canvas.generate_canvas_export sampleSecs none testNow "AIUC").files = [] ∧
      (Canvas.generate_canvas_export sampleSecs none testNow "AIUC").saved = none) :=
  ⟨⟨by decide, by decide⟩,
    (fun h =>
      ⟨⟨h.1.2.1, h.1.2.2⟩, ⟨h.2.2.1, h.2.2.2⟩⟩)
      (claim1_generate_fails_closed sampleSecs none testNow none none sampleSecs none testNow
        "AIUC" (by decide) (by decide))⟩

/-- C3: resetting archives a non-empty prior state.  With a persisted
state that has at least one answer, `start_new_assessment` /
`start_new_canvas` write exactly one archive file, with a
timestamp-suffixed name, whose content is the previous state verbatim,
and install a fresh state with an empty answer mapping and status
`in_progress`; with an empty or absent prior state no archive is
written. -/
theorem claim3_reset_archives (gs : Gov.AssessmentState) (cs : Canvas.CanvasState)
    (now : Now) (ucn : String) (hg : gs.answers ≠ []) (hc : cs.answers ≠ []) :
    (Gov.start_new_assessment (some gs) now).files
        = [(Gov.archiveFileName now, Gov.FData.stateFile gs)] ∧
    Gov.archiveFileName now = "assessment_archive_" ++ now.archiveTag ++ ".json" ∧
    (Gov.start_new_assessment (some gs) now).saved
        = some { created := now.iso, updated := some now.iso, status := "in_progress",
                 answers := [], metadata := [], report_file := none } ∧
    (∀ gs2 : Gov.AssessmentState, gs2.answers = [] →
      (Gov.start_new_assessment (some gs2) now).files = []) ∧
    (Gov.start_new_assessment none now).files = [] ∧
    (Canvas.start_new_canvas (some cs) now ucn).files
        = [(Canvas.archiveFileName now, Canvas.FData.stateFile cs)] ∧
    Canvas.archiveFileName now = "canvas_archive_" ++ now.archiveTag ++ ".json" ∧
    (Canvas.start_new_canvas (some cs) now ucn).saved
        = some { created := now.iso, updated := some now.iso, status := "in_progress",
                 use_case_name := ucn, answers := [], metadata := [],
                 export_files := none } ∧
    (∀ cs2 : Canvas.CanvasState, cs2.answers = [] →
      (Canvas.start_new_canvas (some cs2) now ucn).files = []) ∧
    (Canvas.start_new_canvas none now ucn).files = [] := by
  refine ⟨?_, rfl, rfl, ?_, rfl, ?_, rfl, rfl, ?_, rfl⟩
  · simp only [Gov.start_new_assessment]
    rw [if_pos hg]
  · intro gs2 h2
    simp only [Gov.start_new_assessment]
    rw [if_neg (fun hne => hne h2)]
  · simp only [Canvas.start_new_canvas]
    rw [if_pos hc]
  · intro cs2 h2
    simp only [Canvas.start_new_canvas]
    rw [if_neg (fun hne => hne h2)]

/-- A persisted assessment state with one answer, for witnesses. -/
def sampleGovState : Gov.AssessmentState :=
  { created := "2024-12-31T09:00:00", updated := some "2024-12-31T09:30:00",
    status := "in_progress",
    answers := [("Q1.1", { answer := "Chatbot", notes := none,
                           timestamp := "2024-12-31T09:30:00" })],
    metadata := [], report_file := none }

/-- A persisted canvas state with one answer, for witnesses. -/
def sampleCanvasState : Canvas.CanvasState :=
  { created := "2024-12-31T09:00:00", updated := some "2024-12-31T09:30:00",
    status := "in_progress", use_case_name := "Chatbot",
    answers := [("Q1.1", { answer := "Lisa", notes := none,
                           timestamp := "2024-12-31T09:30:00" })],
    metadata := [], export_files := none }

theorem claim3_witness :
    (sampleGovState.answers ≠ [] ∧ sampleCanvasState.answers ≠ []) ∧
    (Gov.start_new_assessment (some sampleGovState) testNow).files
        = [(Gov.archiveFileName testNow, Gov.FData.stateFile sampleGovState)] ∧
    (Canvas.start_new_canvas (some sampleCanvasState) testNow "Bot").files
        = [(Canvas.archiveFileName testNow, Canvas.FData.stateFile sampleCanvasState)] :=
  ⟨⟨by decide, by decide⟩,
    (fun h => ⟨h.1, h.2.2.2.2.2.1⟩)
      (claim3_reset_archives sampleGovState sampleCanvasState testNow "Bot"
        (by decide) (by decide))⟩

/-- C7: batch answer validation.  If any question id supplied to
`save_section_answers` is not a question of the addressed section, the
call returns the error message enumerating exactly the invalid ids and
saves nothing: no file is written and the persisted state is not
touched. -/
theorem claim7_batch_validation (sections : List (String × QSection))
    (fs : Option Canvas.CanvasState) (now : Now) (section_id : String)
    (answers : List (String × String)) (sec : QSection)
    (hsec : alGet (Canvas.normSectionId section_id) sections = some sec)
    (hinv : (answers.map Prod.fst).filter
        (fun q => !(sec.questions.map Prod.fst).contains q) ≠ []) :
    (Canvas.save_section_answers sections fs now section_id answers).message
        = Canvas.invalidIdsMessage (Canvas.normSectionId section_id)
            ((answers.map Prod.fst).filter
              (fun q => !(sec.questions.map Prod.fst).contains q))
            (sec.questions.map Prod.fst) ∧
    (Canvas.save_section_answers sections fs now section_id answers).files = [] ∧
    (Canvas.save_section_answers sections fs now section_id answers).saved = none := by
  simp only [Canvas.save_section_answers, hsec]
  rw [if_pos hinv]
  exact ⟨rfl, rfl, rfl⟩

theorem claim7_witness :
    (alGet (Canvas.normSectionId "1") sampleSecs
        = some { number := "1", name := "General",
                 questions :=
                   [("Q1.1",
                     { id := "Q1.1", title := "Name", question := "What is the name?",
                       qtype := "text", required := true, options := none })] } ∧
      ([("Q1.1", "Alice"), ("Q9.9", "Bob")].map (Prod.fst (β := String))).filter
          (fun q => !(["Q1.1"] : List String).contains q) ≠ []) ∧
    (Canvas.save_section_answers sampleSecs none testNow "1"
        [("Q1.1", "Alice"), ("Q9.9", "Bob")]).saved = none ∧
    (Canvas.save_section_answers sampleSecs none testNow "1"
        [("Q1.1", "Alice"), ("Q9.9", "Bob")]).files = [] :=
  ⟨⟨by decide, by decide⟩,
    (fun h => ⟨h.2.2, h.2.1⟩)
      (claim7_batch_validation sampleSecs none testNow "1"
        [("Q1.1", "Alice"), ("Q9.9", "Bob")]
        { number := "1", name := "General",
          questions :=
            [("Q1.1",
              { id := "Q1.1", title := "Name", question := "What is the name?",
                qtype := "text", required := true, options := none })] }
        (by decide) (by decide))⟩

theorem pyTake_of_le (n : Nat) (s : String) (h : pyLen s ≤ n) : pyTake n s = s := by
  unfold pyLen at h
  unfold pyTake
  rw [List.take_of_length_le h]
  cases s with
  | mk data => rfl

/-- C4: last write wins in `save_answer`.  For a question id present in
the outline, saving `X` and then `Y` leaves the stored answer record for
that id equal to the `Y` record, every entry of the answer mapping under
that id is the `Y` record (no record of `X` remains), and the
answered-question count equals the count after the first save.  Proved
for both agents. -/
theorem claim4_last_write_wins
    (gsec : List (String × QSection)) (gfs : Option Gov.AssessmentState)
    (gnow1 gnow2 : Now) (gqid gX gY : String) (gn1 gn2 : Option String)
    (gt gsn : String) (gs1 gs2 : Gov.AssessmentState)
    (csec : List (String × QSection)) (cfs : Option Canvas.CanvasState)
    (cnow1 cnow2 : Now) (cqid cX cY : String) (cn1 cn2 : Option String)
    (ct csn : String) (cs1 cs2 : Canvas.CanvasState)
    (hgf : findQuestion gsec gqid = some (gt, gsn))
    (hgnd : ((Gov.load_assessment gfs gnow1).1.answers.map Prod.fst).Nodup)
    (hg1 : (Gov.save_answer gsec gfs gnow1 gqid gX gn1).saved = some gs1)
    (hg2 : (Gov.save_answer gsec (some gs1) gnow2 gqid gY gn2).saved = some gs2)
    (hcf : findQuestion csec cqid = some (ct, csn))
    (hcnd : ((Canvas.load_canvas cfs cnow1).1.answers.map Prod.fst).Nodup)
    (hc1 : (Canvas.save_answer csec cfs cnow1 cqid cX cn1).saved = some cs1)
    (hc2 : (Canvas.save_answer csec (some cs1) cnow2 cqid cY cn2).saved = some cs2) :
    (alGet gqid gs2.answers = some ⟨gY, gn2, gnow2.iso⟩ ∧
      (∀ p ∈ gs2.answers, p.1 = gqid → p.2 = ⟨gY, gn2, gnow2.iso⟩) ∧
      gs2.answers.length = gs1.answers.length) ∧
    (alGet cqid cs2.answers = some ⟨cY, cn2, cnow2.iso⟩ ∧
      (∀ p ∈ cs2.answers, p.1 = cqid → p.2 = ⟨cY, cn2, cnow2.iso⟩) ∧
      cs2.answers.length = cs1.answers.length) := by
  simp only [Gov.save_answer, hgf, Option.some.injEq] at hg1
  subst hg1
  simp only [Gov.save_answer, hgf, Gov.load_assessment, Option.some.injEq] at hg2
  subst hg2
  simp only [Canvas.save_answer, hcf, Option.some.injEq] at hc1
  subst hc1
  simp only [Canvas.save_answer, hcf, Canvas.load_canvas, Option.some.injEq] at hc2
  subst hc2
  refine ⟨⟨?_, ?_, ?_⟩, ⟨?_, ?_, ?_⟩⟩
  · exact alGet_alSet_self _ _ _
  · intro p hp hk
    exact alSet_entry_eq (nodup_keys_alSet _ _ _ hgnd) p hp hk
  · exact length_alSet_mem _ _ _ (mem_keys_alSet_self _ _ _)
  · exact alGet_alSet_self _ _ _
  · intro p hp hk
    exact alSet_entry_eq (nodup_keys_alSet _ _ _ hcnd) p hp hk
  · exact length_alSet_mem _ _ _ (mem_keys_alSet_self _ _ _)

/-- The state after saving `X` on a fresh assessment (first save). -/
def c4gs1 : Gov.AssessmentState :=
  { created := testNow.iso, updated := some testNow.iso, status := "in_progress",
    answers := [("Q1.1", { answer := "X", notes := none, timestamp := testNow.iso })],
    metadata := [], report_file := none }

/-- The state after overwriting with `Y` (second save). -/
def c4gs2 : Gov.AssessmentState :=
  { created := testNow.iso, updated := some testNow.iso, status := "in_progress",
    answers := [("Q1.1", { answer := "Y", notes := none, timestamp := testNow.iso })],
    metadata := [], report_file := none }

/-- Canvas states of the same two-save experiment. -/
def c4cs1 : Canvas.CanvasState :=
  { created := testNow.iso, updated := some testNow.iso, status := "in_progress",
    use_case_name := "",
    answers := [("Q1.1", { answer := "X", notes := none, timestamp := testNow.iso })],
    metadata := [], export_files := none }

def c4cs2 : Canvas.CanvasState :=
  { created := testNow.iso, updated := some testNow.iso, status := "in_progress",
    use_case_name := "",
    answers := [("Q1.1", { answer := "Y", notes := none, timestamp := testNow.iso })],
    metadata := [], export_files := none }

theorem claim4_witness :
    (findQuestion sampleSecs "Q1.1" = some ("Name", "General") ∧
      (Gov.save_answer sampleSecs none testNow "Q1.1" "X" none).saved = some c4gs1 ∧
      (Gov.save_answer sampleSecs (some c4gs1) testNow "Q1.1" "Y" none).saved = some c4gs2 ∧
      (Canvas.save_answer sampleSecs none testNow "Q1.1" "X" none).saved = some c4cs1 ∧
      (Canvas.save_answer sampleSecs (some c4cs1) testNow "Q1.1" "Y" none).saved
        = some c4cs2) ∧
    (alGet "Q1.1" c4gs2.answers = some ⟨"Y", none, testNow.iso⟩ ∧
      c4gs2.answers.length = c4gs1.answers.length ∧
      alGet "Q1.1" c4cs2.answers = some ⟨"Y", none, testNow.iso⟩ ∧
      c4cs2.answers.length = c4cs1.answers.length) :=
  ⟨⟨by decide, by decide, by decide, by decide, by decide⟩,
    (fun h => ⟨h.1.1, h.1.2.2, h.2.1, h.2.2.2⟩)
      (claim4_last_write_wins sampleSecs none testNow testNow "Q1.1" "X" "Y" none none
        "Name" "General" c4gs1 c4gs2 sampleSecs none testNow testNow "Q1.1" "X" "Y"
        none none "Name" "General" c4cs1 c4cs2 (by decide) (by decide) (by decide)
        (by decide) (by decide) (by decide) (by decide) (by decide))⟩

/-- C9: confirmation-message truncation.  For a valid question id, the
answer shown in the confirmation message of `save_answer` is the first
200 characters followed by `...` when the answer is longer than 200
characters, and the full answer with no ellipsis when it is at most 200
characters long; the record stored in the state is always the full,
untruncated answer.  Proved for both agents. -/
theorem claim9_truncation
    (gsec : List (String × QSection)) (gfs : Option Gov.AssessmentState) (gnow : Now)
    (gqid gans : String) (gnotes : Option String) (gt gsn : String)
    (csec : List (String × QSection)) (cfs : Option Canvas.CanvasState) (cnow : Now)
    (cqid cans : String) (cnotes : Option String) (ct csn : String)
    (hgf : findQuestion gsec gqid = some (gt, gsn))
    (hcf : findQuestion csec cqid = some (ct, csn)) :
    ((pyLen gans > 200 →
        (Gov.save_answer gsec gfs gnow gqid gans gnotes).message
          = Gov.save_answer_message gqid gt gsn (pyTake 200 gans ++ "...")
              (alSet gqid ⟨gans, gnotes, gnow.iso⟩
                (Gov.load_assessment gfs gnow).1.answers).length
              (total_questions gsec)) ∧
      (pyLen gans ≤ 200 →
        (Gov.save_answer gsec gfs gnow gqid gans gnotes).message
          = Gov.save_answer_message gqid gt gsn gans
              (alSet gqid ⟨gans, gnotes, gnow.iso⟩
                (Gov.load_assessment gfs gnow).1.answers).length
              (total_questions gsec)) ∧
      (Gov.save_answer gsec gfs gnow gqid gans gnotes).saved.map
          (fun s => alGet gqid s.answers)
        = some (some ⟨gans, gnotes, gnow.iso⟩)) ∧
    ((pyLen cans > 200 →
        (Canvas.save_answer csec cfs cnow cqid cans cnotes).message
          = Canvas.save_answer_message cqid ct csn (pyTake 200 cans ++ "...")
              (alSet cqid ⟨cans, cnotes, cnow.iso⟩
                (Canvas.load_canvas cfs cnow).1.answers).length
              (total_questions csec)
              (required_answered csec
                ((alSet cqid ⟨cans, cnotes, cnow.iso⟩
                  (Canvas.load_canvas cfs cnow).1.answers).map Prod.fst))
              (required_total csec)) ∧
      (pyLen cans ≤ 200 →
        (Canvas.save_answer csec cfs cnow cqid cans cnotes).message
          = Canvas.save_answer_message cqid ct csn cans
              (alSet cqid ⟨cans, cnotes, cnow.iso⟩
                (Canvas.load_canvas cfs cnow).1.answers).length
              (total_questions csec)
              (required_answered csec
                ((alSet cqid ⟨cans, cnotes, cnow.iso⟩
                  (Canvas.load_canvas cfs cnow).1.answers).map Prod.fst))
              (required_total csec)) ∧
      (Canvas.save_answer csec cfs cnow cqid cans cnotes).saved.map
          (fun s => alGet cqid s.answers)
        = some (some ⟨cans, cnotes, cnow.iso⟩)) := by
  have hdg : pyLen gans > 200 → answerDisplay gans = pyTake 200 gans ++ "..." := by
    intro h
    simp [answerDisplay, h]
  have hdg2 : pyLen gans ≤ 200 → answerDisplay gans = gans := by
    intro h
    simp only [answerDisplay, if_neg (by omega : ¬pyLen gans > 200)]
    rw [pyTake_of_le 200 gans h]
    simp
  have hdc : pyLen cans > 200 → answerDisplay cans = pyTake 200 cans ++ "..." := by
    intro h
    simp [answerDisplay, h]
  have hdc2 : pyLen cans ≤ 200 → answerDisplay cans = cans := by
    intro h
    simp only [answerDisplay, if_neg (by omega : ¬pyLen cans > 200)]
    rw [pyTake_of_le 200 cans h]
    simp
  refine ⟨⟨?_, ?_, ?_⟩, ⟨?_, ?_, ?_⟩⟩
  · intro h
    simp only [Gov.save_answer, hgf]
    rw [hdg h]
  · intro h
    simp only [Gov.save_answer, hgf]
    rw [hdg2 h]
  · simp only [Gov.save_answer, hgf, Option.map_some']
    exact congrArg some (alGet_alSet_self _ _ _)
  · intro h
    simp only [Canvas.save_answer, hcf]
    rw [hdc h]
  · intro h
    simp only [Canvas.save_answer, hcf]
    rw [hdc2 h]
  · simp only [Canvas.save_answer, hcf, Option.map_some']
    exact congrArg some (alGet_alSet_self _ _ _)

/-- An answer of exactly 250 characters. -/
def longAns : String := String.mk (List.replicate 250 'a')

theorem claim9_witness :
    (findQuestion sampleSecs "Q1.1" = some ("Name", "General") ∧
      pyLen longAns > 200 ∧ pyLen "short" ≤ 200) ∧
    (Gov.save_answer sampleSecs none testNow "Q1.1" longAns none).message
        = Gov.save_answer_message "Q1.1" "Name" "General" (pyTake 200 longAns ++ "...")
            (alSet "Q1.1" ⟨longAns, none, testNow.iso⟩
              (Gov.load_assessment none testNow).1.answers).length
            (total_questions sampleSecs) ∧
    (Gov.save_answer sampleSecs none testNow "Q1.1" longAns none).saved.map
        (fun s => alGet "Q1.1" s.answers)
      = some (some ⟨longAns, none, testNow.iso⟩) ∧
    (Canvas.save_answer sampleSecs none testNow "Q1.1" "short" none).message
        = Canvas.save_answer_message "Q1.1" "Name" "General" "short"
            (alSet "Q1.1" ⟨"short", none, testNow.iso⟩
              (Canvas.load_canvas none testNow).1.answers).length
            (total_questions sampleSecs)
            (required_answered sampleSecs
              ((alSet "Q1.1" ⟨"short", none, testNow.iso⟩
                (Canvas.load_canvas none testNow).1.answers).map Prod.fst))
            (required_total sampleSecs) :=
  ⟨⟨by decide, by decide, by decide⟩,
    (fun h => ⟨h.1.1 (by decide), h.1.2.2, h.2.2.1 (by decide)⟩)
      (claim9_truncation sampleSecs none testNow "Q1.1" longAns none "Name" "General"
        sampleSecs none testNow "Q1.1" "short" none "Name" "General"
        (by decide) (by decide))⟩

/-- C2 counterexample: in `parse_questionnaire` a section-header line does
NOT close out the in-progress question.  On this document the question
`Q1.1`, still being assembled when `## Section 2` is read, ends up in the
question mapping of the NEW section `S2` (attached at the next question
header), and `S1` stays empty -- contradicting the claim that it is
attached to the section being closed. -/
theorem claim2_counterexample :
    (alGet "S1"
        (parse_questionnaire
          "## Section 1: A\n### Q1.1 - T\n## Section 2: B\n### Q2.1 - U")).map
        (fun sec => sec.questions.map Prod.fst) = some [] ∧
    (alGet "S2"
        (parse_questionnaire
          "## Section 1: A\n### Q1.1 - T\n## Section 2: B\n### Q2.1 - U")).map
        (fun sec => sec.questions.map Prod.fst) = some ["Q1.1", "Q2.1"] := by
  constructor
  · decide
  · decide

/-- C2 (amended): only `parse_canvas` behaves as claimed.  On a line
matching the section-header pattern while a question is in progress and a
current section exists, `canvasStep` attaches the in-progress question to
the section being closed, clears the accumulator, and opens a new section
with an empty question mapping; `questionnaireStep` leaves the in-progress
question pending (it is later attached to the newly opened section, as the
counterexample shows) while also opening the new empty section. -/
theorem claim2_amended (st : PState) (l : String) (num name k : String) (q : Question)
    (sec : QSection)
    (hm : matchSection (pyStrip l) = some (num, name))
    (hq : st.curQ = some q) (hk : st.curSection = some k)
    (hsec : alGet k st.sections = some sec)
    (hne : "S" ++ num ≠ k) :
    (canvasStep st l).curQ = none ∧
    (canvasStep st l).curSection = some ("S" ++ num) ∧
    alGet k (canvasStep st l).sections
        = some { sec with questions := alSet q.id q sec.questions } ∧
    alGet ("S" ++ num) (canvasStep st l).sections = some ⟨num, name, []⟩ ∧
    (questionnaireStep st l).curQ = some q ∧
    alGet k (questionnaireStep st l).sections = some sec ∧
    alGet ("S" ++ num) (questionnaireStep st l).sections = some ⟨num, name, []⟩ := by
  have hstart : pyStartsWith (pyStrip l) "## Section" = true := matchSection_startsWith hm
  refine ⟨?_, ?_, ?_, ?_, ?_, ?_, ?_⟩
  · simp only [canvasStep]
    rw [if_pos hstart, hq, hk, hm]
  · simp only [canvasStep]
    rw [if_pos hstart, hq, hk, hm]
  · simp only [canvasStep]
    rw [if_pos hstart, hq, hk, hm]
    show alGet k (alSet ("S" ++ num) ⟨num, name, []⟩
      (alModify k (fun s2 => { s2 with questions := alSet q.id q s2.questions })
        st.sections)) = _
    rw [alGet_alSet_ne _ _ _ _ hne, alGet_alModify_self, hsec]
    rfl
  · simp only [canvasStep]
    rw [if_pos hstart, hq, hk, hm]
    exact alGet_alSet_self _ _ _
  · simp only [questionnaireStep]
    rw [if_pos hstart, hm]
    exact hq
  · simp only [questionnaireStep]
    rw [if_pos hstart, hm]
    show alGet k (alSet ("S" ++ num) ⟨num, name, []⟩ st.sections) = _
    rw [alGet_alSet_ne _ _ _ _ hne]
    exact hsec
  · simp only [questionnaireStep]
    rw [if_pos hstart, hm]
    exact alGet_alSet_self _ _ _

/-- A parser state in the middle of section `S1` with `Q1.1` pending. -/
def c2st : PState :=
  ⟨[("S1", ⟨"1", "A", []⟩)], some "S1",
    some ⟨"Q1.1", "T", "", "text", true, none⟩, []⟩

theorem claim2_witness :
    (matchSection (pyStrip "## Section 2: B") = some ("2", "B") ∧
      c2st.curQ = some ⟨"Q1.1", "T", "", "text", true, none⟩ ∧
      c2st.curSection = some "S1" ∧
      alGet "S1" c2st.sections = some ⟨"1", "A", []⟩ ∧
      "S" ++ "2" ≠ "S1") ∧
    (canvasStep c2st "## Section 2: B").curQ = none ∧
    alGet "S1" (canvasStep c2st "## Section 2: B").sections
        = some ⟨"1", "A",
            [("Q1.1", ⟨"Q1.1", "T", "", "text", true, none⟩)]⟩ ∧
    alGet "S2" (canvasStep c2st "## Section 2: B").sections = some ⟨"2", "B", []⟩ ∧
    (questionnaireStep c2st "## Section 2: B").curQ
        = some ⟨"Q1.1", "T", "", "text", true, none⟩ :=
  ⟨⟨by decide, by decide, by decide, by decide, by decide⟩,
    (fun h => ⟨h.1, h.2.2.1, h.2.2.2.1, h.2.2.2.2.1⟩)
      (claim2_amended c2st "## Section 2: B" "2" "B" "S1"
        ⟨"Q1.1", "T", "", "text", true, none⟩ ⟨"1", "A", []⟩
        (by decide) (by decide) (by decide) (by decide) (by decide))⟩

/-- C6 counterexample: a malformed question header is dropped, but the
block is NOT free of side effects on other questions.  After the malformed
header `### Qbad`, the label line mutates -- through the still-aliased
accumulator dict -- the already-attached previous question `Q1.1`, whose
question text becomes `evil` instead of `real text`; without the malformed
block it stays `real text`. -/
theorem claim6_counterexample :
    ((alGet "S1"
        (parse_questionnaire
          "## Section 1: A\n### Q1.1 - T1\n**Question:** real text\n### Qbad\n**Question:** evil")).bind
        (fun sec => alGet "Q1.1" sec.questions)).map Question.question = some "evil" ∧
    ((alGet "S1"
        (parse_questionnaire
          "## Section 1: A\n### Q1.1 - T1\n**Question:** real text")).bind
        (fun sec => alGet "Q1.1" sec.questions)).map Question.question
      = some "real text" ∧
    ((alGet "S1"
        (parse_canvas
          "## Section 1: A\n### Q1.1 - T1\n**Question:** real text\n### Qbad\n**Question:** evil")).bind
        (fun sec => alGet "Q1.1" sec.questions)).map Question.question = some "evil" := by
  refine ⟨?_, ?_, ?_⟩
  · decide
  · decide
  · decide

/-- C6 (amended): a line that starts with `### Q` but does not match the
question-header pattern produces no new question: in both parsers the step
is exactly the flush of the in-progress question into the current section
(the accumulator keeps pointing at that previous question, so later label
lines keep mutating it, also inside the section it was attached to -- the
block is not side-effect free, as the counterexample shows). -/
theorem claim6_amended (st : PState) (l : String)
    (hq : pyStartsWith (pyStrip l) "### Q" = true)
    (hm : matchQ (pyStrip l) = none) :
    questionnaireStep st l = storeCur st ∧ canvasStep st l = storeCur st := by
  have hns : pyStartsWith (pyStrip l) "## Section" = false := not_section_of_q hq
  constructor
  · simp only [questionnaireStep]
    rw [if_neg (by rw [hns]; exact Bool.false_ne_true)]
    simp only [lineStepRest]
    rw [if_pos hq, hm]
  · simp only [canvasStep]
    rw [if_neg (by rw [hns]; exact Bool.false_ne_true)]
    simp only [lineStepRest]
    rw [if_pos hq, hm]

theorem claim6_witness :
    (pyStartsWith (pyStrip "### Qbad") "### Q" = true ∧
      matchQ (pyStrip "### Qbad") = none) ∧
    questionnaireStep c2st "### Qbad" = storeCur c2st ∧
    canvasStep c2st "### Qbad" = storeCur c2st :=
  ⟨⟨by decide, by decide⟩,
    claim6_amended c2st "### Qbad" (by decide) (by decide)⟩

theorem total_questions_eq_sum (sections : List (String × QSection)) :
    total_questions sections = (sections.map (fun p => p.2.questions.length)).sum := by
  unfold total_questions
  suffices h : ∀ a : Nat,
      sections.foldl (fun acc p => acc + p.2.questions.length) a
        = a + (sections.map (fun p => p.2.questions.length)).sum by
    simpa using h 0
  induction sections with
  | nil => intro a; simp
  | cons p rest ih =>
    intro a
    simp only [List.foldl_cons, List.map_cons, List.sum_cons, ih, Nat.add_assoc]

/-- C5 counterexample: on a document that declares the id `Q1.1` in two
different sections, `parse_questionnaire` produces an outline in which
`Q1.1` occurs in the question mapping of both `S1` and `S2` -- the id does
not appear in exactly one section.  (The carried-over question accumulator
also places `Q1.2`, declared under Section 1, into `S2`.) -/
theorem claim5_counterexample :
    (alGet "S1"
        (parse_questionnaire
          "## Section 1: A\n### Q1.1 - T\n### Q1.2 - V\n## Section 2: B\n### Q1.1 - U")).map
        (fun sec => sec.questions.map Prod.fst) = some ["Q1.1"] ∧
    (alGet "S2"
        (parse_questionnaire
          "## Section 1: A\n### Q1.1 - T\n### Q1.2 - V\n## Section 2: B\n### Q1.1 - U")).map
        (fun sec => sec.questions.map Prod.fst) = some ["Q1.2", "Q1.1"] ∧
    ¬(allQKeys
        (parse_questionnaire
          "## Section 1: A\n### Q1.1 - T\n### Q1.2 - V\n## Section 2: B\n### Q1.1 - U")).Nodup := by
  refine ⟨?_, ?_, ?_⟩
  · decide
  · decide
  · decide

/-- C5 (amended): for every document in which every line starting with
`### Q` matches the question-header pattern and the matched question ids
are pairwise distinct, every question id of the outline produced by
`parse_questionnaire` occurs in exactly one section (the concatenation of
all sections' key lists is duplicate-free), and the outline's total
question count equals the sum over all sections of that section's question
count. -/
theorem claim5_amended (content : String)
    (hwf : ∀ l ∈ pySplitChar '\n' content,
      pyStartsWith (pyStrip l) "### Q" = true → (matchQ (pyStrip l)).isSome = true)
    (hnd : (docQIds (pySplitChar '\n' content)).Nodup) :
    (allQKeys (parse_questionnaire content)).Nodup ∧
    total_questions (parse_questionnaire content)
      = ((parse_questionnaire content).map (fun p => p.2.questions.length)).sum :=
  ⟨parse_questionnaire_nodup content hwf hnd, total_questions_eq_sum _⟩

theorem claim5_witness :
    ((∀ l ∈ pySplitChar '\n' "## Section 1: A\n### Q1.1 - T\n### Q1.2 - U",
        pyStartsWith (pyStrip l) "### Q" = true → (matchQ (pyStrip l)).isSome = true) ∧
      (docQIds (pySplitChar '\n' "## Section 1: A\n### Q1.1 - T\n### Q1.2 - U")).Nodup) ∧
    (allQKeys (parse_questionnaire "## Section 1: A\n### Q1.1 - T\n### Q1.2 - U")).Nodup ∧
    total_questions (parse_questionnaire "## Section 1: A\n### Q1.1 - T\n### Q1.2 - U")
      = ((parse_questionnaire "## Section 1: A\n### Q1.1 - T\n### Q1.2 - U").map
          (fun p => p.2.questions.length)).sum :=
  ⟨⟨by decide, by decide⟩,
    claim5_amended "## Section 1: A\n### Q1.1 - T\n### Q1.2 - U" (by decide) (by decide)⟩
